import Mathlib

/-!
A shallow embedding of the rapax GPU-state-management crate.

Device interaction is modelled as a trace: every method that calls into the
underlying GL device returns, besides its result, the list of device calls it
issued (`GLCall`).  Rust panics are modelled by returning `none` (`Option`);
recoverable `Result` values are modelled by `Except String`.

Rust `f32` scalars (clear color) are modelled by `Int`: the code only compares
them for equality, and for non-NaN floats Rust `==` on `f32` coincides with
equality of the represented values.  Native object ids (buffers, textures,
programs, vertex arrays) are modelled by `Nat`.
-/

namespace Rapax

/-! GL numeric constants, as defined by the glow / OpenGL API. -/

def ARRAY_BUFFER : Nat := 0x8892
def ELEMENT_ARRAY_BUFFER : Nat := 0x8893
def BLEND : Nat := 0x0BE2
def DEPTH_TEST : Nat := 0x0B71
def SCISSOR_TEST : Nat := 0x0C11
def STENCIL_TEST : Nat := 0x0B90
def TEXTURE0 : Nat := 0x84C0
def TEXTURE_2D : Nat := 0x0DE1

/-- `enum DrawMode` from `src/ctx.rs`: the primitive mode used by draw calls.
The source declares exactly three variants. -/
inductive DrawMode where
  | triangles
  | lines
  | points
deriving DecidableEq

/-- `DrawMode::to_gl`: `*self as u32`, with the discriminants given in the
source (`Triangles = 0x4`, `Lines = 0x1`, `Points = 0x0`). -/
def DrawMode.toGl : DrawMode → Nat
  | .triangles => 0x4
  | .lines => 0x1
  | .points => 0x0

instance : Fintype DrawMode :=
  ⟨⟨{DrawMode.triangles, DrawMode.lines, DrawMode.points}, by decide⟩,
   by intro x; cases x <;> decide⟩

/-- `enum BlendFactor` from `src/blend.rs`, with the glow discriminants. -/
inductive BlendFactor where
  | constantAlpha
  | constantColor
  | destinationAlpha
  | destinationColor
  | oneMinusConstantAlpha
  | oneMinusConstantColor
  | oneMinusDestinationAlpha
  | oneMinusDestinationColor
  | oneMinusSourceAlpha
  | oneMinusSourceColor
  | sourceAlpha
  | sourceColor
deriving DecidableEq

/-- The `as u32` cast on `BlendFactor` (its `repr(u32)` discriminants). -/
def BlendFactor.toGl : BlendFactor → Nat
  | .constantAlpha => 0x8003
  | .constantColor => 0x8001
  | .destinationAlpha => 0x0304
  | .destinationColor => 0x0306
  | .oneMinusConstantAlpha => 0x8004
  | .oneMinusConstantColor => 0x8002
  | .oneMinusDestinationAlpha => 0x0305
  | .oneMinusDestinationColor => 0x0307
  | .oneMinusSourceAlpha => 0x0303
  | .oneMinusSourceColor => 0x0301
  | .sourceAlpha => 0x0302
  | .sourceColor => 0x0300

/-- `enum BufferType` from `src/buffer.rs`. -/
inductive BufferType where
  | arrayBuffer
  | elementArrayBuffer
deriving DecidableEq

/-- `BufferType`'s `repr(u32)` discriminants (`GL_ARRAY_BUFFER`,
`GL_ELEMENT_ARRAY_BUFFER`). -/
def BufferType.toGl : BufferType → Nat
  | .arrayBuffer => ARRAY_BUFFER
  | .elementArrayBuffer => ELEMENT_ARRAY_BUFFER

/-- `enum BufferUsage` from `src/buffer.rs` with its `to_gl` discriminants. -/
inductive BufferUsage where
  | immutable
  | dynamic
  | stream
deriving DecidableEq

def BufferUsage.toGl : BufferUsage → Nat
  | .immutable => 0x88E4
  | .dynamic => 0x88E8
  | .stream => 0x88E0

/-- `enum DataType` from `src/buffer.rs`, with the glow discriminants. -/
inductive DataType where
  | signedByte
  | unsignedByte
  | signedShort
  | unsignedShort
  | signedInt
  | unsignedInt
  | halfFloat
  | float
  | double
  | fixed
deriving DecidableEq

def DataType.toGl : DataType → Nat
  | .signedByte => 0x1400
  | .unsignedByte => 0x1401
  | .signedShort => 0x1402
  | .unsignedShort => 0x1403
  | .signedInt => 0x1404
  | .unsignedInt => 0x1405
  | .halfFloat => 0x140B
  | .float => 0x1406
  | .double => 0x140A
  | .fixed => 0x140C

/-- `DataType::sizeof` from `src/buffer.rs`. -/
def DataType.sizeof : DataType → Nat
  | .signedByte => 1
  | .unsignedByte => 1
  | .signedShort => 2
  | .unsignedShort => 2
  | .signedInt => 4
  | .unsignedInt => 4
  | .halfFloat => 2
  | .float => 4
  | .double => 8
  | .fixed => 4

/-- A Rust `f32` value as the clear-color code observes it: either an
ordinary (non-NaN, idealized) value or NaN.  The source only ever compares
clear colors with `==`/`!=`, and IEEE equality is value equality on non-NaN
floats but false on NaN — including `NaN == NaN`. -/
inductive F32 where
  | val : Int → F32
  | nan : F32
deriving DecidableEq

/-- Rust's `==` on `f32` (IEEE equality): value equality for non-NaN
operands, false whenever an operand is NaN. -/
def F32.rustEq : F32 → F32 → Bool
  | .val a, .val b => a == b
  | _, _ => false

/-- Whether an `F32` is NaN. -/
def F32.isNan : F32 → Bool
  | .val _ => false
  | .nan => true

/-- Rust's `==` on `[f32; 4]`: componentwise IEEE equality. -/
def colorEq (c d : F32 × F32 × F32 × F32) : Bool :=
  F32.rustEq c.1 d.1 && F32.rustEq c.2.1 d.2.1 &&
    F32.rustEq c.2.2.1 d.2.2.1 && F32.rustEq c.2.2.2 d.2.2.2

/-- No component of the color is NaN. -/
def colorNanFree (c : F32 × F32 × F32 × F32) : Bool :=
  !c.1.isNan && !c.2.1.isNan && !c.2.2.1.isNan && !c.2.2.2.isNan

/-- The value of Rust's `count as i32` cast of a `u32` operand: values at or
above `2^31` wrap to negative. -/
def u32AsI32 (n : Nat) : Int :=
  if n % 2 ^ 32 < 2 ^ 31 then ((n % 2 ^ 32 : Nat) : Int)
  else ((n % 2 ^ 32 : Nat) : Int) - 2 ^ 32

/-- One call into the underlying GL device (the `glow` interface).  Each
constructor mirrors one device entry point the sources invoke. -/
inductive GLCall where
  | bindBuffer (target : Nat) (buffer : Option Nat)
  | bindTexture (target : Nat) (texture : Option Nat)
  | activeTexture (unit : Nat)
  | enable (cap : Nat)
  | disable (cap : Nat)
  | blendFunc (src dst : Nat)
  | clearColor (c : F32 × F32 × F32 × F32)
  | colorMask (r g b a : Bool)
  | depthMask (d : Bool)
  | useProgram (p : Option Nat)
  | viewport (x y w h : Int)
  | drawArrays (mode : Nat) (first count : Int)
  | drawElements (mode : Nat) (count : Int) (ty : Nat) (offset : Int)
  | clear (mask : Nat)
  | bindVertexArray (va : Option Nat)
  | bufferData (target : Nat) (len : Nat) (usage : Nat)
  | bufferSubData (target : Nat) (offset : Int) (len : Nat)
  | deleteBuffer (buffer : Nat)
  | deleteTexture (texture : Nat)
  | deleteProgram (program : Nat)
  | deleteVertexArray (va : Nat)
  | texParameter (target pname : Nat) (value : Int)
  | texImage2D (internalFormat : Nat) (width height : Int) (format ty : Nat) (withData : Bool)
  | texSubImage2D (x y w h : Int) (format ty : Nat) (len : Nat)
  | generateMipmap (target : Nat)
  | uniform4f (loc : Option Nat) (v : Int × Int × Int × Int)
  | uniformMatrix4fv (loc : Option Nat) (transpose : Bool)
  | enableVertexAttribArray (index : Nat)
  | disableVertexAttribArray (index : Nat)
  | vertexAttribPointer (index : Nat) (size : Int) (ty : Nat) (normalized : Bool)
      (stride offset : Int)
  | stencilMaskSeparate (face : Nat) (mask : Nat)
  | stencilFuncSeparate (face fn : Nat) (sref : Int) (mask : Nat)
  | stencilOpSeparate (face sfail dpfail dppass : Nat)
deriving DecidableEq

/-- `enum MaybeKnown<T>` from `src/ctx.rs`. -/
inductive MaybeKnown (α : Type) where
  | known : α → MaybeKnown α
  | unknown : MaybeKnown α
deriving DecidableEq

/-- `MaybeKnown::assume_known`; the `Unknown` arm panics in the source, which
is modelled by `none`. -/
def MaybeKnown.assumeKnown {α : Type} : MaybeKnown α → Option α
  | .known v => some v
  | .unknown => none

/-- `struct ContextState` from `src/ctx.rs`.  `bound_textures` is a Rust
array `[MaybeKnown<Option<NativeTexture>>; 16]`, modelled as a list that is
kept at length 16 by every reachable state. -/
structure ContextState where
  boundArrayBuffer : MaybeKnown (Option Nat)
  boundElementBuffer : MaybeKnown (Option Nat)
  boundTextures : List (MaybeKnown (Option Nat))
  blendEnabled : Bool
  blendFunc : Nat × Nat
  clearColor : F32 × F32 × F32 × F32
  depthEnabled : Bool
  depthWrite : Bool
  colorWrite : Bool × Bool × Bool × Bool
  program : MaybeKnown (Option Nat)
  viewport : Int × Int × Int × Int
deriving DecidableEq

/-- The `#[derive(Default)]` instance of `ContextState`: every `MaybeKnown`
field defaults to `Known(None)`, booleans to `false`, numbers to zero. -/
def ContextState.defaultState : ContextState where
  boundArrayBuffer := .known none
  boundElementBuffer := .known none
  boundTextures := List.replicate 16 (.known none)
  blendEnabled := false
  blendFunc := (0, 0)
  clearColor := (.val 0, .val 0, .val 0, .val 0)
  depthEnabled := false
  depthWrite := false
  colorWrite := (false, false, false, false)
  program := .known none
  viewport := (0, 0, 0, 0)

/-- `ContextState::new`: the default state with `depth_write = true` and
`color_write = [true; 4]`.  (Note `ManagedContext::new` uses
`ContextState::default()`, not this constructor.) -/
def ContextState.newState : ContextState :=
  { ContextState.defaultState with
      depthWrite := true
      colorWrite := (true, true, true, true) }

/-- `struct ManagedContext` from `src/ctx.rs`, minus the `gl` device handle
(device calls are returned as traces instead). -/
structure ManagedContext where
  lastFlushedState : ContextState
  currentState : ContextState
  stateStack : List ContextState
deriving DecidableEq

/-- `ManagedContext::new`: both shadow copies start at
`ContextState::default()` and the stack is empty. -/
def ManagedContext.newCtx : ManagedContext where
  lastFlushedState := ContextState.defaultState
  currentState := ContextState.defaultState
  stateStack := []

/-- `ManagedContext::save`: push a clone of the current state. -/
def ManagedContext.save (ctx : ManagedContext) : ManagedContext :=
  { ctx with stateStack := ctx.currentState :: ctx.stateStack }

/-- `ManagedContext::restore`: pop the last saved state into `current_state`;
`unwrap` on an empty stack panics (`none`). -/
def ManagedContext.restore (ctx : ManagedContext) : Option ManagedContext :=
  match ctx.stateStack with
  | [] => none
  | s :: rest => some { ctx with currentState := s, stateStack := rest }

/-- `ManagedContext::set_blend_func`. -/
def ManagedContext.setBlendFunc (ctx : ManagedContext) (src dst : BlendFactor) :
    ManagedContext × List GLCall :=
  if ctx.lastFlushedState.blendFunc ≠ (src.toGl, dst.toGl) then
    ({ ctx with
        lastFlushedState := { ctx.lastFlushedState with blendFunc := (src.toGl, dst.toGl) }
        currentState := { ctx.currentState with blendFunc := (src.toGl, dst.toGl) } },
     [GLCall.blendFunc src.toGl dst.toGl])
  else (ctx, [])

/-- `ManagedContext::set_blend`. -/
def ManagedContext.setBlend (ctx : ManagedContext) (enabled : Bool) :
    ManagedContext × List GLCall :=
  if ctx.lastFlushedState.blendEnabled ≠ enabled then
    ({ ctx with
        lastFlushedState := { ctx.lastFlushedState with blendEnabled := enabled }
        currentState := { ctx.currentState with blendEnabled := enabled } },
     [if enabled then GLCall.enable BLEND else GLCall.disable BLEND])
  else (ctx, [])

/-- `ManagedContext::set_depth_write`. -/
def ManagedContext.setDepthWrite (ctx : ManagedContext) (enabled : Bool) :
    ManagedContext × List GLCall :=
  if ctx.lastFlushedState.depthWrite ≠ enabled then
    ({ ctx with
        lastFlushedState := { ctx.lastFlushedState with depthWrite := enabled }
        currentState := { ctx.currentState with depthWrite := enabled } },
     [GLCall.depthMask enabled])
  else (ctx, [])

/-- `ManagedContext::set_color_write`. -/
def ManagedContext.setColorWrite (ctx : ManagedContext) (r g b a : Bool) :
    ManagedContext × List GLCall :=
  if ctx.lastFlushedState.colorWrite ≠ (r, g, b, a) then
    ({ ctx with
        lastFlushedState := { ctx.lastFlushedState with colorWrite := (r, g, b, a) }
        currentState := { ctx.currentState with colorWrite := (r, g, b, a) } },
     [GLCall.colorMask r g b a])
  else (ctx, [])

/-- `ManagedContext::use_program` (the `ProgramSource` argument supplies a
native program id). -/
def ManagedContext.useProgram (ctx : ManagedContext) (program : Nat) :
    ManagedContext × List GLCall :=
  if ctx.lastFlushedState.program ≠ MaybeKnown.known (some program) then
    ({ ctx with
        lastFlushedState := { ctx.lastFlushedState with program := .known (some program) }
        currentState := { ctx.currentState with program := .known (some program) } },
     [GLCall.useProgram (some program)])
  else (ctx, [])

/-- `ManagedContext::unuse_program`. -/
def ManagedContext.unuseProgram (ctx : ManagedContext) : ManagedContext × List GLCall :=
  if ctx.lastFlushedState.program ≠ MaybeKnown.known none then
    ({ ctx with
        lastFlushedState := { ctx.lastFlushedState with program := .known none }
        currentState := { ctx.currentState with program := .known none } },
     [GLCall.useProgram none])
  else (ctx, [])

/-- `ManagedContext::bind_array_buffer`. -/
def ManagedContext.bindArrayBuffer (ctx : ManagedContext) (buffer : Nat) :
    ManagedContext × List GLCall :=
  if ctx.lastFlushedState.boundArrayBuffer ≠ MaybeKnown.known (some buffer) then
    ({ ctx with
        lastFlushedState :=
          { ctx.lastFlushedState with boundArrayBuffer := .known (some buffer) }
        currentState := { ctx.currentState with boundArrayBuffer := .known (some buffer) } },
     [GLCall.bindBuffer ARRAY_BUFFER (some buffer)])
  else (ctx, [])

/-- `ManagedContext::unbind_array_buffer`. -/
def ManagedContext.unbindArrayBuffer (ctx : ManagedContext) : ManagedContext × List GLCall :=
  if ctx.lastFlushedState.boundArrayBuffer ≠ MaybeKnown.known none then
    ({ ctx with
        lastFlushedState := { ctx.lastFlushedState with boundArrayBuffer := .known none }
        currentState := { ctx.currentState with boundArrayBuffer := .known none } },
     [GLCall.bindBuffer ARRAY_BUFFER none])
  else (ctx, [])

/-- `ManagedContext::bind_index_buffer`. -/
def ManagedContext.bindIndexBuffer (ctx : ManagedContext) (buffer : Nat) :
    ManagedContext × List GLCall :=
  if ctx.lastFlushedState.boundElementBuffer ≠ MaybeKnown.known (some buffer) then
    ({ ctx with
        lastFlushedState :=
          { ctx.lastFlushedState with boundElementBuffer := .known (some buffer) }
        currentState := { ctx.currentState with boundElementBuffer := .known (some buffer) } },
     [GLCall.bindBuffer ELEMENT_ARRAY_BUFFER (some buffer)])
  else (ctx, [])

/-- `ManagedContext::unbind_index_buffer`. -/
def ManagedContext.unbindIndexBuffer (ctx : ManagedContext) : ManagedContext × List GLCall :=
  if ctx.lastFlushedState.boundElementBuffer ≠ MaybeKnown.known none then
    ({ ctx with
        lastFlushedState := { ctx.lastFlushedState with boundElementBuffer := .known none }
        currentState := { ctx.currentState with boundElementBuffer := .known none } },
     [GLCall.bindBuffer ELEMENT_ARRAY_BUFFER none])
  else (ctx, [])

/-- `ManagedContext::set_clear_color`.  The guard is Rust `!=` on
`[f32; 4]`, i.e. negated IEEE equality: a NaN component makes the guard true
on every call. -/
def ManagedContext.setClearColor (ctx : ManagedContext) (color : F32 × F32 × F32 × F32) :
    ManagedContext × List GLCall :=
  if !(colorEq ctx.lastFlushedState.clearColor color) then
    ({ ctx with
        lastFlushedState := { ctx.lastFlushedState with clearColor := color }
        currentState := { ctx.currentState with clearColor := color } },
     [GLCall.clearColor color])
  else (ctx, [])

/-- `ManagedContext::set_viewport`. -/
def ManagedContext.setViewport (ctx : ManagedContext) (x y w h : Int) :
    ManagedContext × List GLCall :=
  if ctx.lastFlushedState.viewport ≠ (x, y, w, h) then
    ({ ctx with
        lastFlushedState := { ctx.lastFlushedState with viewport := (x, y, w, h) }
        currentState := { ctx.currentState with viewport := (x, y, w, h) } },
     [GLCall.viewport x y w h])
  else (ctx, [])

/-- `ManagedContext::draw_arrays`: unconditional device call. -/
def ManagedContext.drawArraysCtx (ctx : ManagedContext) (mode : DrawMode)
    (first count : Int) : ManagedContext × List GLCall :=
  (ctx, [GLCall.drawArrays mode.toGl first count])

/-- `ManagedContext::draw_elements`: unconditional device call.  `count` is
a Rust `u32` and the source emits `count as i32`, a wrapping cast. -/
def ManagedContext.drawElementsCtx (ctx : ManagedContext) (mode : DrawMode)
    (count : Nat) (ty : DataType) (offset : Int) : ManagedContext × List GLCall :=
  (ctx, [GLCall.drawElements mode.toGl (u32AsI32 count) ty.toGl offset])

/-- `ManagedContext::clear`: unconditional device call. -/
def ManagedContext.clearCtx (ctx : ManagedContext) (mask : Nat) :
    ManagedContext × List GLCall :=
  (ctx, [GLCall.clear mask])

/-- `ManagedContext::invalidate_texture`: indexing `bound_textures[unit]`
panics (`none`) when the unit is out of the array's range. -/
def ManagedContext.invalidateTexture (ctx : ManagedContext) (unit : Nat) :
    Option ManagedContext :=
  if unit < ctx.lastFlushedState.boundTextures.length then
    some { ctx with
            lastFlushedState :=
              { ctx.lastFlushedState with
                  boundTextures := ctx.lastFlushedState.boundTextures.set unit .unknown } }
  else none

/-- `ManagedContext::invalidate_index_buffer`. -/
def ManagedContext.invalidateIndexBuffer (ctx : ManagedContext) : ManagedContext :=
  { ctx with
      lastFlushedState := { ctx.lastFlushedState with boundElementBuffer := .unknown } }

/-- `ManagedContext::invalidate_array_buffer`. -/
def ManagedContext.invalidateArrayBuffer (ctx : ManagedContext) : ManagedContext :=
  { ctx with
      lastFlushedState := { ctx.lastFlushedState with boundArrayBuffer := .unknown } }

/-- The texture loop of `ManagedContext::flush_state`: walk
`current_state.bound_textures` and `last_flushed_state.bound_textures` in
parallel (the Rust `zip` of the two `enumerate`d iterators, `i` being the
running index); for each unit whose entries differ, select the unit and
re-bind the current texture, panicking (`none`) if the current entry is
`Unknown`. -/
def textureFlushCalls :
    List (MaybeKnown (Option Nat)) → List (MaybeKnown (Option Nat)) → Nat →
    Option (List GLCall)
  | [], _, _ => some []
  | _ :: _, [], _ => some []
  | c :: cs, l :: ls, i => do
    let rest ← textureFlushCalls cs ls (i + 1)
    if c ≠ l then
      let t ← c.assumeKnown
      pure (GLCall.activeTexture (TEXTURE0 + i) :: GLCall.bindTexture TEXTURE_2D t :: rest)
    else
      pure rest

/-- The buffer-rebind steps of `flush_state`: when the two shadow entries for
a binding point differ, re-bind the current one (`assume_known` panicking,
`none`, when the current entry is `Unknown`). -/
def bufferFlushCalls (last cur : MaybeKnown (Option Nat)) (target : Nat) :
    Option (List GLCall) :=
  if last ≠ cur then cur.assumeKnown.map (fun b => [GLCall.bindBuffer target b])
  else some []

/-- The program step of `flush_state`, same diff-then-`assume_known` shape. -/
def programFlushCalls (last cur : MaybeKnown (Option Nat)) : Option (List GLCall) :=
  if last ≠ cur then cur.assumeKnown.map (fun p => [GLCall.useProgram p])
  else some []

/-- `ManagedContext::flush_state`: re-diff every field of the two shadow
copies in source order, issue a device call for each differing field, then set
`last_flushed_state` to a clone of `current_state`.  The `assume_known`
panics on an `Unknown` current field are modelled by `none` (a run that would
panic produces no trace). -/
def ManagedContext.flushState (ctx : ManagedContext) :
    Option (ManagedContext × List GLCall) :=
  let last := ctx.lastFlushedState
  let cur := ctx.currentState
  match bufferFlushCalls last.boundArrayBuffer cur.boundArrayBuffer ARRAY_BUFFER,
      bufferFlushCalls last.boundElementBuffer cur.boundElementBuffer ELEMENT_ARRAY_BUFFER,
      textureFlushCalls cur.boundTextures last.boundTextures 0,
      programFlushCalls last.program cur.program with
  | some abCalls, some ebCalls, some texCalls, some programCalls =>
    let blendEnableCalls :=
      if last.blendEnabled && !cur.blendEnabled then [GLCall.disable BLEND]
      else if !last.blendEnabled && cur.blendEnabled then [GLCall.enable BLEND]
      else []
    let blendFuncCalls :=
      if last.blendFunc ≠ cur.blendFunc then
        [GLCall.blendFunc cur.blendFunc.1 cur.blendFunc.2]
      else []
    let clearColorCalls :=
      if !(colorEq last.clearColor cur.clearColor) then [GLCall.clearColor cur.clearColor]
      else []
    let depthCalls :=
      if last.depthEnabled && !cur.depthEnabled then [GLCall.disable DEPTH_TEST]
      else if !last.depthEnabled && cur.depthEnabled then [GLCall.enable DEPTH_TEST]
      else []
    let colorWriteCalls :=
      if last.colorWrite ≠ cur.colorWrite then
        [GLCall.colorMask cur.colorWrite.1 cur.colorWrite.2.1 cur.colorWrite.2.2.1
          cur.colorWrite.2.2.2]
      else []
    let depthWriteCalls :=
      if last.depthWrite ≠ cur.depthWrite then [GLCall.depthMask cur.depthWrite] else []
    let viewportCalls :=
      if last.viewport ≠ cur.viewport then
        [GLCall.viewport cur.viewport.1 cur.viewport.2.1 cur.viewport.2.2.1
          cur.viewport.2.2.2]
      else []
    some ({ ctx with lastFlushedState := cur },
      abCalls ++ ebCalls ++ texCalls ++ blendEnableCalls ++ blendFuncCalls ++
        clearColorCalls ++ depthCalls ++ colorWriteCalls ++ depthWriteCalls ++
        programCalls ++ viewportCalls)
  | _, _, _, _ => none

/-! Resource handles. -/

/-- `struct BufferHandle` from `src/buffer.rs`, minus the `gl` handle.
The struct derives `Clone` in the source. -/
structure BufferHandle where
  capacity : Nat
  buffer : Nat
  ty : BufferType
deriving DecidableEq

/-- The `#[derive(Clone)]` implementation of `BufferHandle`: a field-for-field
copy, in particular the clone refers to the same native buffer id. -/
def BufferHandle.clone (h : BufferHandle) : BufferHandle := h

/-- `impl Drop for BufferHandle`: deletes the native buffer. -/
def BufferHandle.dropHandle (h : BufferHandle) : List GLCall :=
  [GLCall.deleteBuffer h.buffer]

/-- `ManagedContext::bind_any_buffer`: match on `buffer_type` to pick the
shadow fields and the target, then the same guarded bind as the dedicated
binders. -/
def ManagedContext.bindAnyBuffer (ctx : ManagedContext) (buffer : BufferHandle) :
    ManagedContext × List GLCall :=
  match buffer.ty with
  | .arrayBuffer =>
    if ctx.lastFlushedState.boundArrayBuffer ≠ MaybeKnown.known (some buffer.buffer) then
      ({ ctx with
          lastFlushedState :=
            { ctx.lastFlushedState with boundArrayBuffer := .known (some buffer.buffer) }
          currentState :=
            { ctx.currentState with boundArrayBuffer := .known (some buffer.buffer) } },
       [GLCall.bindBuffer ARRAY_BUFFER (some buffer.buffer)])
    else (ctx, [])
  | .elementArrayBuffer =>
    if ctx.lastFlushedState.boundElementBuffer ≠ MaybeKnown.known (some buffer.buffer) then
      ({ ctx with
          lastFlushedState :=
            { ctx.lastFlushedState with boundElementBuffer := .known (some buffer.buffer) }
          currentState :=
            { ctx.currentState with boundElementBuffer := .known (some buffer.buffer) } },
       [GLCall.bindBuffer ELEMENT_ARRAY_BUFFER (some buffer.buffer)])
    else (ctx, [])

/-- `BufferHandle::array_buffer`.  `alloc` is the outcome of the device's
`create_buffer()`; its failure propagates with `?` as a recoverable
`Result::Err`. -/
def BufferHandle.arrayBuffer (alloc : Except String Nat) (usage : BufferUsage)
    (dataLen : Nat) : Except String (BufferHandle × List GLCall) :=
  match alloc with
  | .error e => .error e
  | .ok b =>
    .ok ({ capacity := dataLen, buffer := b, ty := .arrayBuffer },
      [GLCall.bindBuffer ARRAY_BUFFER (some b),
       GLCall.bufferData ARRAY_BUFFER dataLen usage.toGl])

/-- `BufferHandle::index_buffer`, analogous to `array_buffer`. -/
def BufferHandle.indexBuffer (alloc : Except String Nat) (usage : BufferUsage)
    (dataLen : Nat) : Except String (BufferHandle × List GLCall) :=
  match alloc with
  | .error e => .error e
  | .ok b =>
    .ok ({ capacity := dataLen, buffer := b, ty := .elementArrayBuffer },
      [GLCall.bindBuffer ELEMENT_ARRAY_BUFFER (some b),
       GLCall.bufferData ELEMENT_ARRAY_BUFFER dataLen usage.toGl])

/-- `BufferHandle::realloc`: re-issues `glBufferData` on the existing native
buffer and sets `capacity = data.len()`. -/
def BufferHandle.realloc (h : BufferHandle) (usage : BufferUsage) (dataLen : Nat) :
    BufferHandle × List GLCall :=
  ({ h with capacity := dataLen },
   [GLCall.bindBuffer h.ty.toGl (some h.buffer),
    GLCall.bufferData h.ty.toGl dataLen usage.toGl])

/-- The value of Rust's `offset as usize` for an `i32` offset on a 64-bit
target: sign-extend to 64 bits and reinterpret. -/
def i32AsUsize (offset : Int) : Nat := (offset % (2 ^ 64 : Int)).toNat

/-- `BufferHandle::update`: asserts
`offset as usize + data.len() <= self.capacity` (panic `none` otherwise), then
binds the buffer and issues `glBufferSubData`.  The receiver is `&self`:
the handle (and so its capacity) is not modified. -/
def BufferHandle.update (h : BufferHandle) (offset : Int) (dataLen : Nat) :
    Option (List GLCall) :=
  if i32AsUsize offset + dataLen ≤ h.capacity then
    some [GLCall.bindBuffer h.ty.toGl (some h.buffer),
          GLCall.bufferSubData h.ty.toGl offset dataLen]
  else none

/-- `struct ShaderProgram` from `src/shader.rs`, minus the `gl` handle. -/
structure ShaderProgram where
  program : Nat
deriving DecidableEq

/-- The outcomes the device reports during `compile_shader`:
`create_program`/`create_shader` results, per-stage compile status, link
status. -/
structure ShaderDevice where
  createProgram : Except String Nat
  createVertexShader : Except String Nat
  createFragmentShader : Except String Nat
  vertexCompileOk : Bool
  fragmentCompileOk : Bool
  linkOk : Bool

/-- `compile_shader` from `src/shader.rs`: every failure path panics —
`create_program().expect(..)`, `create_shader(..).expect(..)`,
`panic_any(log)` on a failed compile status, `panic_any(log)` on a failed
link status — modelled by `none`.  On success the linked program id is
returned. -/
def compileShader (dev : ShaderDevice) : Option Nat :=
  match dev.createProgram with
  | .error _ => none
  | .ok program =>
    match dev.createVertexShader with
    | .error _ => none
    | .ok _ =>
      if !dev.vertexCompileOk then none
      else
        match dev.createFragmentShader with
        | .error _ => none
        | .ok _ =>
          if !dev.fragmentCompileOk then none
          else if !dev.linkOk then none
          else some program

/-- `ShaderProgram::new`: wraps `compile_shader`, so it panics whenever
`compile_shader` does. -/
def ShaderProgram.newProgram (dev : ShaderDevice) : Option ShaderProgram :=
  (compileShader dev).map ShaderProgram.mk

/-- `ShaderProgram::set_uniform_float4`.  `lookup` is the device's
`get_uniform_location`; a name absent from the linked program yields `none`,
which the source forwards unchanged into the `uniform_4_f32` call.  There is
no panic path, so the result is always `some`. -/
def ShaderProgram.setUniformFloat4 (lookup : Nat → String → Option Nat)
    (sp : ShaderProgram) (name : String) (value : Int × Int × Int × Int) :
    Option (List GLCall) :=
  some [GLCall.useProgram (some sp.program),
        GLCall.uniform4f (lookup sp.program name) value]

/-- `ShaderProgram::set_uniform_mat4`, same location handling as
`set_uniform_float4`. -/
def ShaderProgram.setUniformMat4 (lookup : Nat → String → Option Nat)
    (sp : ShaderProgram) (name : String) (transpose : Bool) :
    Option (List GLCall) :=
  some [GLCall.useProgram (some sp.program),
        GLCall.uniformMatrix4fv (lookup sp.program name) transpose]

/-- `struct VertexArrayObject` from `src/va.rs`, minus the `gl` handle. -/
structure VertexArrayObject where
  vao : Nat
deriving DecidableEq

/-- `VertexArrayObject::new`: `create_vertex_array().unwrap()` — an
allocation failure panics (`none`). -/
def VertexArrayObject.newVao (alloc : Except String Nat) :
    Option (VertexArrayObject × List GLCall) :=
  match alloc with
  | .error _ => none
  | .ok v => some (⟨v⟩, [])

/-- `enum TextureFormat` from `src/texture.rs` (glow discriminants). -/
inductive TextureFormat where
  | rgb
  | rgba
  | rgb565
  | rgba4444
  | rgba5551
  | rgba8888
  | rgb10a2
  | r8
  | r16
  | rg8
  | rg16
  | rgba32f
  | rgba16f
  | depthComponent
  | depthStencil
deriving DecidableEq

def TextureFormat.toGl : TextureFormat → Nat
  | .rgb => 0x1907
  | .rgba => 0x1908
  | .rgb565 => 0x8D62
  | .rgba4444 => 0x8056
  | .rgba5551 => 0x8057
  | .rgba8888 => 0x8058
  | .rgb10a2 => 0x8059
  | .r8 => 0x8229
  | .r16 => 0x822A
  | .rg8 => 0x822B
  | .rg16 => 0x822C
  | .rgba32f => 0x8814
  | .rgba16f => 0x881A
  | .depthComponent => 0x1902
  | .depthStencil => 0x88F0

/-- `struct TextureHandle` from `src/texture.rs`, minus the `gl` handle. -/
structure TextureHandle where
  texture : Nat
deriving DecidableEq

/-- `TextureHandle::new`: `create_texture()?` — an allocation failure is a
recoverable `Result::Err`; on success sampler parameters are set on the bound
texture.  The wrap/filter parameter values are the glow discriminants of the
`TextureWrap` / `TextureFilteringMode` arguments. -/
def TextureHandle.newTexture (alloc : Except String Nat)
    (wrapS wrapT minFilter magFilter : Int) :
    Except String (TextureHandle × List GLCall) :=
  match alloc with
  | .error e => .error e
  | .ok t =>
    .ok (⟨t⟩,
      [GLCall.bindTexture TEXTURE_2D (some t),
       GLCall.texParameter TEXTURE_2D 0x2802 wrapS,
       GLCall.texParameter TEXTURE_2D 0x2803 wrapT,
       GLCall.texParameter TEXTURE_2D 0x2800 magFilter,
       GLCall.texParameter TEXTURE_2D 0x2801 minFilter,
       GLCall.bindTexture TEXTURE_2D none])

/-- `struct Texture2D(TextureHandle)` from `src/texture/tex_2d.rs`: a plain
newtype over the handle — no dimensions or format are recorded. -/
structure Texture2D where
  handle : TextureHandle
deriving DecidableEq

/-- `TextureHandle::allocate_2d_data` from `src/texture.rs`: issues
`tex_image_2d` with the same format for internal and transfer format and
wraps the handle into a `Texture2D`. -/
def TextureHandle.allocate2dData (h : TextureHandle) (dataLen : Option Nat)
    (format : TextureFormat) (width height : Int) (ty : DataType) :
    Texture2D × List GLCall :=
  (⟨h⟩,
   [GLCall.bindTexture TEXTURE_2D (some h.texture),
    GLCall.texImage2D format.toGl width height format.toGl ty.toGl dataLen.isSome,
    GLCall.bindTexture TEXTURE_2D none])

/-- `Texture2D::write_subimage` from `src/texture/tex_2d.rs`: binds the
texture, issues `tex_sub_image_2d` with the caller's rectangle, unbinds.
The source performs no bounds validation of any kind. -/
def Texture2D.writeSubimage (t : Texture2D) (xOffset yOffset width height : Int)
    (format : TextureFormat) (ty : DataType) (dataLen : Nat) : List GLCall :=
  [GLCall.bindTexture TEXTURE_2D (some t.handle.texture),
   GLCall.texSubImage2D xOffset yOffset width height format.toGl ty.toGl dataLen,
   GLCall.bindTexture TEXTURE_2D none]

/-- `Texture2D::generate_mipmaps`. -/
def Texture2D.generateMipmaps (t : Texture2D) : List GLCall :=
  [GLCall.bindTexture TEXTURE_2D (some t.handle.texture),
   GLCall.generateMipmap TEXTURE_2D,
   GLCall.bindTexture TEXTURE_2D none]

/-! The render pipeline descriptor, from `src/pipeline.rs`. -/

/-- `enum StencilFunc` (glow discriminants). -/
inductive StencilFunc where
  | never
  | less
  | lessThanOrEqual
  | greater
  | greaterThanOrEqual
  | equal
  | notEqual
  | always
deriving DecidableEq

def StencilFunc.toGl : StencilFunc → Nat
  | .never => 0x0200
  | .less => 0x0201
  | .lessThanOrEqual => 0x0203
  | .greater => 0x0204
  | .greaterThanOrEqual => 0x0206
  | .equal => 0x0202
  | .notEqual => 0x0205
  | .always => 0x0207

/-- `enum StencilOp` (glow discriminants). -/
inductive StencilOp where
  | keep
  | zero
  | replace
  | increment
  | incrementWrap
  | decrement
  | decrementWrap
  | invert
deriving DecidableEq

def StencilOp.toGl : StencilOp → Nat
  | .keep => 0x1E00
  | .zero => 0x0
  | .replace => 0x1E01
  | .increment => 0x1E02
  | .incrementWrap => 0x8507
  | .decrement => 0x1E03
  | .decrementWrap => 0x8508
  | .invert => 0x150A

/-- `struct VertexAttributeDescriptor`. -/
structure VertexAttributeDescriptor where
  bufferIndex : Nat
  size : Int
  ty : DataType
  normalized : Bool
  stride : Int
  offset : Int
  divisor : Nat
deriving DecidableEq

/-- `struct StencilFuncState`. -/
structure StencilFuncState where
  mask : Nat
  func : StencilFunc
  sref : Int
deriving DecidableEq

/-- `struct StencilState`. -/
structure StencilState where
  frontMask : Nat
  backMask : Nat
  front : StencilFuncState
  back : StencilFuncState
  frontStencilOp : StencilOp × StencilOp × StencilOp
  backStencilOp : StencilOp × StencilOp × StencilOp
deriving DecidableEq

/-- `struct RenderPipeline`: an immutable state descriptor plus a program
reference. -/
structure RenderPipeline where
  blendEnabled : Bool
  blendFunc : Nat × Nat
  scissorEnabled : Bool
  stencilState : Option StencilState
  depthEnabled : Bool
  depthWrite : Bool
  colorWrite : Bool × Bool × Bool × Bool
  program : ShaderProgram
  vertexAttributes : List VertexAttributeDescriptor
deriving DecidableEq

/-- `RenderPipeline::new`. -/
def RenderPipeline.newPipeline (program : ShaderProgram) : RenderPipeline where
  blendEnabled := false
  blendFunc := (0, 0)
  scissorEnabled := false
  stencilState := none
  depthEnabled := false
  depthWrite := false
  colorWrite := (true, true, true, true)
  program := program
  vertexAttributes := []

/-- `RenderPipeline::with_vertex_attribute`: appends the descriptor. -/
def RenderPipeline.withVertexAttribute (p : RenderPipeline)
    (attr : VertexAttributeDescriptor) : RenderPipeline :=
  { p with vertexAttributes := p.vertexAttributes ++ [attr] }

/-- `RenderPipeline::with_blend`. -/
def RenderPipeline.withBlend (p : RenderPipeline) (enabled : Bool) : RenderPipeline :=
  { p with blendEnabled := enabled }

/-- `RenderPipeline::with_blend_func`. -/
def RenderPipeline.withBlendFunc (p : RenderPipeline) (src dst : BlendFactor) :
    RenderPipeline :=
  { p with blendFunc := (src.toGl, dst.toGl) }

/-- `RenderPipeline::with_depth`. -/
def RenderPipeline.withDepth (p : RenderPipeline) (enabled : Bool) : RenderPipeline :=
  { p with depthEnabled := enabled }

/-- `RenderPipeline::with_depth_write`. -/
def RenderPipeline.withDepthWrite (p : RenderPipeline) (enabled : Bool) : RenderPipeline :=
  { p with depthWrite := enabled }

/-- `RenderPipeline::with_color_write`. -/
def RenderPipeline.withColorWrite (p : RenderPipeline) (r g b a : Bool) : RenderPipeline :=
  { p with colorWrite := (r, g, b, a) }

/-- `RenderPipeline::with_stencil`. -/
def RenderPipeline.withStencil (p : RenderPipeline) (stencil : Option StencilState) :
    RenderPipeline :=
  { p with stencilState := stencil }

/-! The pipeline-application scope.  The repository code that implements it
(`ManagedContext::with_pipeline` and the drawable context it hands to the
caller's closure, used by every example) is not among the provided sources;
it is modelled here from the spec. -/

/-- Modelled from the spec: the stencil portion of scope entry — "stencil
configuration (mask/func/ops per face, or stencil-test disable if no stencil
descriptor is present)".  `FRONT = 0x0404`, `BACK = 0x0405`. -/
def stencilEnterCalls : Option StencilState → List GLCall
  | none => [GLCall.disable STENCIL_TEST]
  | some s =>
    [GLCall.enable STENCIL_TEST,
     GLCall.stencilMaskSeparate 0x0404 s.frontMask,
     GLCall.stencilMaskSeparate 0x0405 s.backMask,
     GLCall.stencilFuncSeparate 0x0404 s.front.func.toGl s.front.sref s.front.mask,
     GLCall.stencilFuncSeparate 0x0405 s.back.func.toGl s.back.sref s.back.mask,
     GLCall.stencilOpSeparate 0x0404 s.frontStencilOp.1.toGl s.frontStencilOp.2.1.toGl
       s.frontStencilOp.2.2.toGl,
     GLCall.stencilOpSeparate 0x0405 s.backStencilOp.1.toGl s.backStencilOp.2.1.toGl
       s.backStencilOp.2.2.toGl]

/-- Modelled from the spec: entering a pipeline-application scope
(`ManagedContext::with_pipeline`, absent from the provided sources)
"unconditionally issues, in order: blend enable+func, depth-test enable,
color-write mask, depth-write mask, program bind, a single shared
vertex-array bind, scissor enable, and stencil configuration". -/
def pipelineEnterCalls (sharedVao : Nat) (p : RenderPipeline) : List GLCall :=
  (if p.blendEnabled then [GLCall.enable BLEND] else [GLCall.disable BLEND]) ++
  [GLCall.blendFunc p.blendFunc.1 p.blendFunc.2] ++
  (if p.depthEnabled then [GLCall.enable DEPTH_TEST] else [GLCall.disable DEPTH_TEST]) ++
  [GLCall.colorMask p.colorWrite.1 p.colorWrite.2.1 p.colorWrite.2.2.1 p.colorWrite.2.2.2,
   GLCall.depthMask p.depthWrite,
   GLCall.useProgram (some p.program.program),
   GLCall.bindVertexArray (some sharedVao)] ++
  (if p.scissorEnabled then [GLCall.enable SCISSOR_TEST] else [GLCall.disable SCISSOR_TEST]) ++
  stencilEnterCalls p.stencilState

/-- Modelled from the spec: exiting the scope "disables every attribute index
0..N-1 declared by the pipeline". -/
def pipelineExitCalls (p : RenderPipeline) : List GLCall :=
  (List.range p.vertexAttributes.length).map GLCall.disableVertexAttribArray

/-- Modelled from the spec: `apply_bindings(vertexBuffers[], indexBuffer?)` —
for each attribute descriptor in list order, bind
`vertexBuffers[descriptor.bufferSlotIndex]` (an out-of-range slot index is a
fatal programming error, `none`), issue the attribute-pointer call, and
enable the attribute index; finally bind the index buffer if present. -/
def attribBindCalls (vertexBuffers : List Nat) :
    List VertexAttributeDescriptor → Nat → Option (List GLCall)
  | [], _ => some []
  | attr :: rest, i => do
    let buf ← vertexBuffers.get? attr.bufferIndex
    let tail ← attribBindCalls vertexBuffers rest (i + 1)
    pure (GLCall.bindBuffer ARRAY_BUFFER (some buf) ::
          GLCall.vertexAttribPointer i attr.size attr.ty.toGl attr.normalized
            attr.stride attr.offset ::
          GLCall.enableVertexAttribArray i :: tail)

/-- Modelled from the spec (continued): the full `apply_bindings` call
sequence, binding the index buffer last when one is supplied. -/
def applyBindingsCalls (p : RenderPipeline) (vertexBuffers : List Nat)
    (indexBuffer : Option Nat) : Option (List GLCall) := do
  let calls ← attribBindCalls vertexBuffers p.vertexAttributes 0
  match indexBuffer with
  | none => pure calls
  | some b => pure (calls ++ [GLCall.bindBuffer ELEMENT_ARRAY_BUFFER (some b)])

/-- Modelled from the spec: a whole pipeline-application scope — the
unconditional entry sequence, then the calls the caller's closure issued
through the drawable context, then the attribute teardown on exit. -/
def withPipelineTrace (sharedVao : Nat) (p : RenderPipeline)
    (bodyCalls : List GLCall) : List GLCall :=
  pipelineEnterCalls sharedVao p ++ bodyCalls ++ pipelineExitCalls p

/-- The device's enabled-vertex-attribute state: applying a call trace to the
set of enabled attribute indices.  Only
`enable_vertex_attrib_array` / `disable_vertex_attrib_array` touch it. -/
def applyAttribCall (enabled : Finset Nat) : GLCall → Finset Nat
  | GLCall.enableVertexAttribArray i => insert i enabled
  | GLCall.disableVertexAttribArray i => enabled.erase i
  | _ => enabled

/-- Fold `applyAttribCall` over a trace, front to back. -/
def applyAttribCalls (enabled : Finset Nat) (calls : List GLCall) : Finset Nat :=
  calls.foldl applyAttribCall enabled

/-! Reachability of `ManagedContext` states: the public operations of
`src/ctx.rs`, run in sequence from `ManagedContext::new`.
`bind_vertex_array_with` is not listed separately: it only issues
vertex-array device calls around a caller closure that receives the same
`&mut ManagedContext`, so every state it can produce is produced by the flat
sequence of the operations the closure performs. -/

/-- One public shadow-state operation of `ManagedContext`. -/
inductive Op where
  | setBlendFunc (src dst : BlendFactor)
  | setBlend (enabled : Bool)
  | setDepthWrite (enabled : Bool)
  | setColorWrite (r g b a : Bool)
  | useProgram (program : Nat)
  | unuseProgram
  | bindArrayBuffer (buffer : Nat)
  | unbindArrayBuffer
  | bindIndexBuffer (buffer : Nat)
  | unbindIndexBuffer
  | bindAnyBuffer (buffer : BufferHandle)
  | setClearColor (color : F32 × F32 × F32 × F32)
  | setViewport (x y w h : Int)
  | invalidateTexture (unit : Nat)
  | invalidateIndexBuffer
  | invalidateArrayBuffer
  | save
  | restore
  | flushState
  | drawArrays (mode : DrawMode) (first count : Int)
  | drawElements (mode : DrawMode) (count : Nat) (ty : DataType) (offset : Int)
  | clear (mask : Nat)

/-- Run one operation; `none` models a panic. -/
def runOp (ctx : ManagedContext) : Op → Option (ManagedContext × List GLCall)
  | .setBlendFunc src dst => some (ctx.setBlendFunc src dst)
  | .setBlend enabled => some (ctx.setBlend enabled)
  | .setDepthWrite enabled => some (ctx.setDepthWrite enabled)
  | .setColorWrite r g b a => some (ctx.setColorWrite r g b a)
  | .useProgram program => some (ctx.useProgram program)
  | .unuseProgram => some ctx.unuseProgram
  | .bindArrayBuffer buffer => some (ctx.bindArrayBuffer buffer)
  | .unbindArrayBuffer => some ctx.unbindArrayBuffer
  | .bindIndexBuffer buffer => some (ctx.bindIndexBuffer buffer)
  | .unbindIndexBuffer => some ctx.unbindIndexBuffer
  | .bindAnyBuffer buffer => some (ctx.bindAnyBuffer buffer)
  | .setClearColor color => some (ctx.setClearColor color)
  | .setViewport x y w h => some (ctx.setViewport x y w h)
  | .invalidateTexture unit => (ctx.invalidateTexture unit).map (fun c => (c, []))
  | .invalidateIndexBuffer => some (ctx.invalidateIndexBuffer, [])
  | .invalidateArrayBuffer => some (ctx.invalidateArrayBuffer, [])
  | .save => some (ctx.save, [])
  | .restore => ctx.restore.map (fun c => (c, []))
  | .flushState => ctx.flushState
  | .drawArrays mode first count => some (ctx.drawArraysCtx mode first count)
  | .drawElements mode count ty offset => some (ctx.drawElementsCtx mode count ty offset)
  | .clear mask => some (ctx.clearCtx mask)

/-- Run a sequence of operations, concatenating the device-call traces;
`none` as soon as one panics. -/
def runOps (ctx : ManagedContext) : List Op → Option (ManagedContext × List GLCall)
  | [] => some (ctx, [])
  | op :: ops =>
    match runOp ctx op with
    | none => none
    | some (ctx1, tr1) =>
      match runOps ctx1 ops with
      | none => none
      | some (ctx2, tr2) => some (ctx2, tr1 ++ tr2)

/-- A context state is reachable when some operation sequence, run from
`ManagedContext::new`, produces it without panicking. -/
def Reachable (ctx : ManagedContext) : Prop :=
  ∃ ops tr, runOps ManagedContext.newCtx ops = some (ctx, tr)

/-- Whether a `MaybeKnown` entry is `Known`. -/
def MaybeKnown.isKnown {α : Type} : MaybeKnown α → Bool
  | .known _ => true
  | .unknown => false

/-- Every `MaybeKnown` field of the state is `Known`. -/
def ContextState.allKnown (s : ContextState) : Bool :=
  s.boundArrayBuffer.isKnown && s.boundElementBuffer.isKnown &&
    s.boundTextures.all MaybeKnown.isKnown && s.program.isKnown

/-- A well-formed state: fully `Known` and with the 16-entry texture array
the Rust type fixes. -/
def ContextState.good (s : ContextState) : Prop :=
  s.allKnown = true ∧ s.boundTextures.length = 16

/-- The context invariant: the current state and every saved state are
well-formed, and both texture arrays have the Rust-fixed length 16.
(`last_flushed_state` need not be fully `Known`: the `invalidate_*`
operations poke `Unknown` into it.) -/
def CtxInv (ctx : ManagedContext) : Prop :=
  ctx.currentState.good ∧ ctx.lastFlushedState.boundTextures.length = 16 ∧
    ∀ s ∈ ctx.stateStack, s.good

/-- Iterate a trace-producing operation, concatenating the traces. -/
def repeatOp (f : ManagedContext → ManagedContext × List GLCall) :
    Nat → ManagedContext → ManagedContext × List GLCall
  | 0, ctx => (ctx, [])
  | n + 1, ctx =>
    let (ctx1, tr1) := f ctx
    let (ctx2, tr2) := repeatOp f n ctx1
    (ctx2, tr1 ++ tr2)

/-- The contract of a diffing state mutator for the shadow field read by
`field`, at requested value `v`: a call when the last-flushed field already
equals `v` is a no-op with no device call; a differing call issues exactly
one device call and writes `v` into both shadow copies; and any number of
repeated calls with the unchanged value `v` issues at most one device call
in total. -/
def DiffingMutator {α : Type} (f : ManagedContext → ManagedContext × List GLCall)
    (field : ContextState → α) (v : α) : Prop :=
  (∀ ctx, field ctx.lastFlushedState = v → f ctx = (ctx, [])) ∧
  (∀ ctx, field ctx.lastFlushedState ≠ v →
    (f ctx).2.length = 1 ∧ field (f ctx).1.currentState = v ∧
      field (f ctx).1.lastFlushedState = v) ∧
  (∀ n ctx, ((repeatOp f n ctx).2).length ≤ 1)

/-! Helper lemmas. -/

lemma repeatOp_of_stable {f : ManagedContext → ManagedContext × List GLCall}
    {P : ManagedContext → Prop} (h1 : ∀ ctx, P ctx → f ctx = (ctx, [])) :
    ∀ n ctx, P ctx → repeatOp f n ctx = (ctx, []) := by
  intro n
  induction n with
  | zero => intro ctx _; rfl
  | succ n ih =>
    intro ctx hP
    simp [repeatOp, h1 ctx hP, ih ctx hP]

lemma repeatOp_length_le_one {f : ManagedContext → ManagedContext × List GLCall}
    {P : ManagedContext → Prop} (h1 : ∀ ctx, P ctx → f ctx = (ctx, []))
    (h2 : ∀ ctx, ¬ P ctx → (f ctx).2.length ≤ 1 ∧ P (f ctx).1) :
    ∀ n ctx, ((repeatOp f n ctx).2).length ≤ 1 := by
  intro n ctx
  cases n with
  | zero => simp [repeatOp]
  | succ n =>
    by_cases hP : P ctx
    · rw [repeatOp_of_stable h1 (n + 1) ctx hP]
      simp
    · obtain ⟨hlen, hP1⟩ := h2 ctx hP
      have key : repeatOp f (n + 1) ctx =
          ((repeatOp f n (f ctx).1).1, (f ctx).2 ++ (repeatOp f n (f ctx).1).2) := rfl
      rw [key, repeatOp_of_stable h1 n (f ctx).1 hP1]
      simpa using hlen

lemma setBlend_diffing (enabled : Bool) :
    DiffingMutator (fun ctx => ctx.setBlend enabled) (fun s => s.blendEnabled) enabled := by
  refine ⟨?_, ?_, ?_⟩
  · intro ctx h; simp [ManagedContext.setBlend, h]
  · intro ctx h
    refine ⟨?_, ?_, ?_⟩ <;> simp [ManagedContext.setBlend, h]
  · refine repeatOp_length_le_one
      (P := fun ctx => ctx.lastFlushedState.blendEnabled = enabled) ?_ ?_
    · intro ctx h; simp [ManagedContext.setBlend, h]
    · intro ctx h; constructor <;> simp [ManagedContext.setBlend, h]

lemma setBlendFunc_diffing (src dst : BlendFactor) :
    DiffingMutator (fun ctx => ctx.setBlendFunc src dst) (fun s => s.blendFunc)
      (src.toGl, dst.toGl) := by
  refine ⟨?_, ?_, ?_⟩
  · intro ctx h; simp [ManagedContext.setBlendFunc, h]
  · intro ctx h
    refine ⟨?_, ?_, ?_⟩ <;> simp [ManagedContext.setBlendFunc, h]
  · refine repeatOp_length_le_one
      (P := fun ctx => ctx.lastFlushedState.blendFunc = (src.toGl, dst.toGl)) ?_ ?_
    · intro ctx h; simp [ManagedContext.setBlendFunc, h]
    · intro ctx h; constructor <;> simp [ManagedContext.setBlendFunc, h]

lemma setDepthWrite_diffing (enabled : Bool) :
    DiffingMutator (fun ctx => ctx.setDepthWrite enabled) (fun s => s.depthWrite) enabled := by
  refine ⟨?_, ?_, ?_⟩
  · intro ctx h; simp [ManagedContext.setDepthWrite, h]
  · intro ctx h
    refine ⟨?_, ?_, ?_⟩ <;> simp [ManagedContext.setDepthWrite, h]
  · refine repeatOp_length_le_one
      (P := fun ctx => ctx.lastFlushedState.depthWrite = enabled) ?_ ?_
    · intro ctx h; simp [ManagedContext.setDepthWrite, h]
    · intro ctx h; constructor <;> simp [ManagedContext.setDepthWrite, h]

lemma setColorWrite_diffing (r g b a : Bool) :
    DiffingMutator (fun ctx => ctx.setColorWrite r g b a) (fun s => s.colorWrite)
      (r, g, b, a) := by
  refine ⟨?_, ?_, ?_⟩
  · intro ctx h; simp [ManagedContext.setColorWrite, h]
  · intro ctx h
    refine ⟨?_, ?_, ?_⟩ <;> simp [ManagedContext.setColorWrite, h]
  · refine repeatOp_length_le_one
      (P := fun ctx => ctx.lastFlushedState.colorWrite = (r, g, b, a)) ?_ ?_
    · intro ctx h; simp [ManagedContext.setColorWrite, h]
    · intro ctx h; constructor <;> simp [ManagedContext.setColorWrite, h]

lemma useProgram_diffing (program : Nat) :
    DiffingMutator (fun ctx => ctx.useProgram program) (fun s => s.program)
      (.known (some program)) := by
  refine ⟨?_, ?_, ?_⟩
  · intro ctx h; simp [ManagedContext.useProgram, h]
  · intro ctx h
    refine ⟨?_, ?_, ?_⟩ <;> simp [ManagedContext.useProgram, h]
  · refine repeatOp_length_le_one
      (P := fun ctx => ctx.lastFlushedState.program = .known (some program)) ?_ ?_
    · intro ctx h; simp [ManagedContext.useProgram, h]
    · intro ctx h; constructor <;> simp [ManagedContext.useProgram, h]

lemma bindArrayBuffer_diffing (buffer : Nat) :
    DiffingMutator (fun ctx => ctx.bindArrayBuffer buffer) (fun s => s.boundArrayBuffer)
      (.known (some buffer)) := by
  refine ⟨?_, ?_, ?_⟩
  · intro ctx h; simp [ManagedContext.bindArrayBuffer, h]
  · intro ctx h
    refine ⟨?_, ?_, ?_⟩ <;> simp [ManagedContext.bindArrayBuffer, h]
  · refine repeatOp_length_le_one
      (P := fun ctx => ctx.lastFlushedState.boundArrayBuffer = .known (some buffer)) ?_ ?_
    · intro ctx h; simp [ManagedContext.bindArrayBuffer, h]
    · intro ctx h; constructor <;> simp [ManagedContext.bindArrayBuffer, h]

lemma bindIndexBuffer_diffing (buffer : Nat) :
    DiffingMutator (fun ctx => ctx.bindIndexBuffer buffer) (fun s => s.boundElementBuffer)
      (.known (some buffer)) := by
  refine ⟨?_, ?_, ?_⟩
  · intro ctx h; simp [ManagedContext.bindIndexBuffer, h]
  · intro ctx h
    refine ⟨?_, ?_, ?_⟩ <;> simp [ManagedContext.bindIndexBuffer, h]
  · refine repeatOp_length_le_one
      (P := fun ctx => ctx.lastFlushedState.boundElementBuffer = .known (some buffer)) ?_ ?_
    · intro ctx h; simp [ManagedContext.bindIndexBuffer, h]
    · intro ctx h; constructor <;> simp [ManagedContext.bindIndexBuffer, h]

lemma colorEq_refl {c : F32 × F32 × F32 × F32} (h : colorNanFree c = true) :
    colorEq c c = true := by
  obtain ⟨c1, c2, c3, c4⟩ := c
  simp only [colorNanFree, Bool.and_eq_true, Bool.not_eq_true'] at h
  obtain ⟨⟨⟨h1, h2⟩, h3⟩, h4⟩ := h
  cases c1 <;> cases c2 <;> cases c3 <;> cases c4 <;>
    simp_all [colorEq, F32.rustEq, F32.isNan]

lemma setClearColor_rustEq_diffing (color : F32 × F32 × F32 × F32) :
    (∀ ctx : ManagedContext, colorEq ctx.lastFlushedState.clearColor color = true →
      ctx.setClearColor color = (ctx, [])) ∧
    (∀ ctx : ManagedContext, colorEq ctx.lastFlushedState.clearColor color = false →
      (ctx.setClearColor color).2.length = 1 ∧
        (ctx.setClearColor color).1.currentState.clearColor = color ∧
        (ctx.setClearColor color).1.lastFlushedState.clearColor = color) := by
  constructor
  · intro ctx h; simp [ManagedContext.setClearColor, h]
  · intro ctx h
    refine ⟨?_, ?_, ?_⟩ <;> simp [ManagedContext.setClearColor, h]

lemma setClearColor_nanFree_at_most_once {color : F32 × F32 × F32 × F32}
    (hnf : colorNanFree color = true) :
    ∀ n ctx, ((repeatOp (fun ctx => ctx.setClearColor color) n ctx).2).length ≤ 1 := by
  refine repeatOp_length_le_one
    (P := fun ctx => colorEq ctx.lastFlushedState.clearColor color = true) ?_ ?_
  · intro ctx h; simp [ManagedContext.setClearColor, h]
  · intro ctx h
    rw [Bool.not_eq_true] at h
    constructor
    · simp [ManagedContext.setClearColor, h]
    · simp [ManagedContext.setClearColor, h, colorEq_refl hnf]

lemma setViewport_diffing (x y w h : Int) :
    DiffingMutator (fun ctx => ctx.setViewport x y w h) (fun s => s.viewport)
      (x, y, w, h) := by
  refine ⟨?_, ?_, ?_⟩
  · intro ctx hlast; simp [ManagedContext.setViewport, hlast]
  · intro ctx hlast
    refine ⟨?_, ?_, ?_⟩ <;> simp [ManagedContext.setViewport, hlast]
  · refine repeatOp_length_le_one
      (P := fun ctx => ctx.lastFlushedState.viewport = (x, y, w, h)) ?_ ?_
    · intro ctx hlast; simp [ManagedContext.setViewport, hlast]
    · intro ctx hlast; constructor <;> simp [ManagedContext.setViewport, hlast]

/-- C1 counterexample: the claim's at-most-once clause fails for
`set_clear_color`.  The guard at ctx.rs:271 is Rust `!=` on `[f32; 4]`, and
NaN never compares equal to itself, so two repeated calls with the identical
NaN-containing color fire the `clear_color` device call twice from the
initial context. -/
theorem C1_counterexample :
    ((repeatOp (fun ctx => ctx.setClearColor (.nan, .val 0, .val 0, .val 0)) 2
        ManagedContext.newCtx).2).length = 2 := by
  decide

/-- C1 amended: the mutators over `bool`/integer/`MaybeKnown`-valued shadow
fields (`set_blend`, `set_blend_func`, `set_depth_write`, `set_color_write`,
`use_program`, `bind_array_buffer`, `bind_index_buffer`, `set_viewport`)
obey the full diffing contract — equal value: no device call; differing
value: exactly one device call with both shadow fields updated; repeated
unchanged value: at most one device call.  `set_clear_color` obeys the same
per-call contract under Rust's `f32` equality (no call when the new color
compares IEEE-equal to the last-flushed one, one call and both fields
updated when it compares unequal), but because NaN never compares equal to
itself its at-most-once clause holds only for NaN-free colors; with a NaN
component every repeated call re-fires the device call. -/
theorem C1_state_mutators_diff_amended :
    (∀ enabled, DiffingMutator (fun ctx => ctx.setBlend enabled)
      (fun s => s.blendEnabled) enabled) ∧
    (∀ src dst, DiffingMutator (fun ctx => ctx.setBlendFunc src dst)
      (fun s => s.blendFunc) (src.toGl, dst.toGl)) ∧
    (∀ enabled, DiffingMutator (fun ctx => ctx.setDepthWrite enabled)
      (fun s => s.depthWrite) enabled) ∧
    (∀ r g b a, DiffingMutator (fun ctx => ctx.setColorWrite r g b a)
      (fun s => s.colorWrite) (r, g, b, a)) ∧
    (∀ program, DiffingMutator (fun ctx => ctx.useProgram program)
      (fun s => s.program) (.known (some program))) ∧
    (∀ buffer, DiffingMutator (fun ctx => ctx.bindArrayBuffer buffer)
      (fun s => s.boundArrayBuffer) (.known (some buffer))) ∧
    (∀ buffer, DiffingMutator (fun ctx => ctx.bindIndexBuffer buffer)
      (fun s => s.boundElementBuffer) (.known (some buffer))) ∧
    (∀ x y w h, DiffingMutator (fun ctx => ctx.setViewport x y w h)
      (fun s => s.viewport) (x, y, w, h)) ∧
    (∀ color,
      (∀ ctx : ManagedContext, colorEq ctx.lastFlushedState.clearColor color = true →
        ctx.setClearColor color = (ctx, [])) ∧
      (∀ ctx : ManagedContext, colorEq ctx.lastFlushedState.clearColor color = false →
        (ctx.setClearColor color).2.length = 1 ∧
          (ctx.setClearColor color).1.currentState.clearColor = color ∧
          (ctx.setClearColor color).1.lastFlushedState.clearColor = color) ∧
      (colorNanFree color = true →
        ∀ n ctx,
          ((repeatOp (fun ctx => ctx.setClearColor color) n ctx).2).length ≤ 1)) :=
  ⟨setBlend_diffing, setBlendFunc_diffing, setDepthWrite_diffing, setColorWrite_diffing,
   useProgram_diffing, bindArrayBuffer_diffing, bindIndexBuffer_diffing,
   setViewport_diffing,
   fun color =>
     ⟨(setClearColor_rustEq_diffing color).1, (setClearColor_rustEq_diffing color).2,
      fun hnf => setClearColor_nanFree_at_most_once hnf⟩⟩

/-- Witness for C1 amended at concrete inputs: from the initial context,
`set_blend(false)` matches the last-flushed value and is a no-op,
`set_blend(true)` differs and issues exactly one device call, and three
repeated `set_clear_color` calls with a NaN-free color issue at most one
device call. -/
theorem C1_state_mutators_diff_amended_witness :
    ManagedContext.newCtx.lastFlushedState.blendEnabled = false ∧
    ManagedContext.newCtx.setBlend false = (ManagedContext.newCtx, []) ∧
    ManagedContext.newCtx.lastFlushedState.blendEnabled ≠ true ∧
    (ManagedContext.newCtx.setBlend true).2.length = 1 ∧
    colorNanFree (.val 1, .val 0, .val 0, .val 1) = true ∧
    ((repeatOp (fun ctx => ctx.setClearColor (.val 1, .val 0, .val 0, .val 1)) 3
        ManagedContext.newCtx).2).length ≤ 1 :=
  ⟨rfl,
   (C1_state_mutators_diff_amended.1 false).1 ManagedContext.newCtx rfl,
   by decide,
   ((C1_state_mutators_diff_amended.1 true).2.1 ManagedContext.newCtx (by decide)).1,
   by decide,
   (C1_state_mutators_diff_amended.2.2.2.2.2.2.2.2 (.val 1, .val 0, .val 0, .val 1)).2.2
     (by decide) 3 ManagedContext.newCtx⟩

/-- C9 counterexample: the claim says the draw-mode enumeration provides
exactly the five modes Points, Lines, Triangles, TriangleStrip and
TriangleFan; the `DrawMode` enum of `src/ctx.rs` has exactly three
inhabitants, so there is no five-element enumeration. -/
theorem C9_counterexample :
    Fintype.card DrawMode = 3 ∧ Fintype.card DrawMode ≠ 5 := by
  constructor <;> decide

/-- C9 amended: the draw primitive mode enumeration provides exactly the
three modes Points, Lines and Triangles, with the device API's fixed numeric
codes (Points=0x0, Lines=0x1, Triangles=0x4) passed through unchanged by
`to_gl` into `draw_arrays` and `draw_elements` (whose `u32` count argument
goes through the source's wrapping `count as i32` cast, modelled by
`u32AsI32`). -/
theorem C9_draw_modes_passthrough :
    DrawMode.toGl .points = 0x0 ∧ DrawMode.toGl .lines = 0x1 ∧
    DrawMode.toGl .triangles = 0x4 ∧ Fintype.card DrawMode = 3 ∧
    (∀ ctx mode first count, (ManagedContext.drawArraysCtx ctx mode first count).2 =
      [GLCall.drawArrays mode.toGl first count]) ∧
    (∀ ctx mode count ty offset,
      (ManagedContext.drawElementsCtx ctx mode count ty offset).2 =
        [GLCall.drawElements mode.toGl (u32AsI32 count) ty.toGl offset]) :=
  ⟨rfl, rfl, rfl, by decide, fun _ _ _ _ => rfl, fun _ _ _ _ _ => rfl⟩

/-- C7 counterexample: after allocating a 4×4 RGBA texture, the
`write_subimage(3,3,4,4,...)` call — whose rectangle exceeds the texture's
bounds — is not rejected: it performs the device upload. -/
theorem C7_counterexample :
    (3 : Int) + 4 > 4 ∧
    GLCall.texSubImage2D 3 3 4 4 TextureFormat.rgba.toGl DataType.unsignedByte.toGl 64 ∈
      (((TextureHandle.mk 7).allocate2dData (some 64) .rgba 4 4 .unsignedByte).1).writeSubimage
        3 3 4 4 .rgba .unsignedByte 64 := by
  constructor <;> decide

/-- C7 amended: `write_subimage` performs no bounds validation — the
`Texture2D` wrapper does not even record the texture's dimensions — so
every call, whether or not its rectangle lies within the allocated
dimensions, unconditionally issues the sub-image upload to the device
(bind, `tex_sub_image_2d` with the caller's rectangle, unbind). -/
theorem C7_write_subimage_unchecked :
    ∀ (t : Texture2D) (x y w h : Int) (format : TextureFormat) (ty : DataType)
      (dataLen : Nat),
      t.writeSubimage x y w h format ty dataLen =
        [GLCall.bindTexture TEXTURE_2D (some t.handle.texture),
         GLCall.texSubImage2D x y w h format.toGl ty.toGl dataLen,
         GLCall.bindTexture TEXTURE_2D none] :=
  fun _ _ _ _ _ _ _ _ => rfl

/-- C8: `BufferHandle` derives `Clone` while its `Drop` implementation
unconditionally deletes the native buffer, so dropping a handle and its
clone deletes the same native buffer twice — evaluated here at a concrete
handle with native id 3. -/
theorem C8_double_delete :
    ((BufferHandle.mk 12 3 .arrayBuffer).dropHandle ++
        ((BufferHandle.mk 12 3 .arrayBuffer).clone).dropHandle).count
      (GLCall.deleteBuffer 3) = 2 := by
  decide

/-- C4 counterexample: with a linked program that has no uniform named
"color" (the location lookup yields `none`), `set_uniform_float4` does not
abort: it completes, issuing the uniform device call with no location. -/
theorem C4_counterexample :
    (fun (_ : Nat) (_ : String) => (none : Option Nat)) 5 "color" = none ∧
    ShaderProgram.setUniformFloat4 (fun _ _ => none) (ShaderProgram.mk 5) "color"
        (1, 0, 0, 1) =
      some [GLCall.useProgram (some 5), GLCall.uniform4f none (1, 0, 0, 1)] :=
  ⟨rfl, rfl⟩

/-- C4 amended: for every `set_uniform_*` operation and every uniform name
absent from the linked program, the call is not fatal: it completes
normally, passing `None` as the location into the uniform device call (which
the device ignores) — a missing name silently does nothing. -/
theorem C4_missing_uniform_silent :
    ∀ (lookup : Nat → String → Option Nat) (sp : ShaderProgram) (uname : String)
      (v : Int × Int × Int × Int) (transpose : Bool),
      lookup sp.program uname = none →
        sp.setUniformFloat4 lookup uname v =
          some [GLCall.useProgram (some sp.program), GLCall.uniform4f none v] ∧
        sp.setUniformMat4 lookup uname transpose =
          some [GLCall.useProgram (some sp.program),
                GLCall.uniformMatrix4fv none transpose] := by
  intro lookup sp uname v transpose h
  constructor <;>
    simp [ShaderProgram.setUniformFloat4, ShaderProgram.setUniformMat4, h]

/-- Witness for C4 amended at a concrete input: a lookup with no uniforms at
all, program id 5, name "color". -/
theorem C4_missing_uniform_silent_witness :
    (fun (_ : Nat) (_ : String) => (none : Option Nat)) 5 "color" = none ∧
    ShaderProgram.setUniformFloat4 (fun _ _ => none) (ShaderProgram.mk 5) "color"
        (1, 0, 0, 1) =
      some [GLCall.useProgram (some 5), GLCall.uniform4f none (1, 0, 0, 1)] :=
  ⟨rfl,
   (C4_missing_uniform_silent (fun _ _ => none) (ShaderProgram.mk 5) "color"
     (1, 0, 0, 1) false rfl).1⟩

/-- C5 counterexample: a failed native allocation does not surface as a
recoverable result for every creation operation — `VertexArrayObject::new`
(`create_vertex_array().unwrap()`) and `compile_shader`
(`create_program().expect(..)`) panic instead. -/
theorem C5_counterexample :
    VertexArrayObject.newVao (.error "out of memory") = none ∧
    compileShader
      { createProgram := .error "out of memory"
        createVertexShader := .ok 1
        createFragmentShader := .ok 2
        vertexCompileOk := true
        fragmentCompileOk := true
        linkOk := true } = none :=
  ⟨rfl, rfl⟩

/-- C5 amended: buffer creation (`array_buffer`, `index_buffer`) and texture
creation surface a native allocation failure to the caller as a recoverable
`Result::Err`, but shader-program creation and vertex-array creation panic
on allocation failure instead of returning a recoverable value. -/
theorem C5_creation_failure :
    ∀ (e : String) (usage : BufferUsage) (dataLen : Nat) (wS wT minF magF : Int)
      (dev : ShaderDevice),
      BufferHandle.arrayBuffer (.error e) usage dataLen = .error e ∧
      BufferHandle.indexBuffer (.error e) usage dataLen = .error e ∧
      TextureHandle.newTexture (.error e) wS wT minF magF = .error e ∧
      (dev.createProgram = .error e → compileShader dev = none) ∧
      VertexArrayObject.newVao (.error e) = none := by
  intro e usage dataLen wS wT minF magF dev
  refine ⟨rfl, rfl, rfl, ?_, rfl⟩
  intro h
  simp [compileShader, h]

/-- Witness for C5 amended at concrete inputs. -/
theorem C5_creation_failure_witness :
    BufferHandle.arrayBuffer (.error "oom") .dynamic 8 = .error "oom" ∧
    VertexArrayObject.newVao (.error "oom") = none ∧
    ({ createProgram := .error "oom", createVertexShader := .ok 1,
       createFragmentShader := .ok 2, vertexCompileOk := true,
       fragmentCompileOk := true, linkOk := true } : ShaderDevice).createProgram =
        .error "oom" ∧
    compileShader
      { createProgram := .error "oom", createVertexShader := .ok 1,
        createFragmentShader := .ok 2, vertexCompileOk := true,
        fragmentCompileOk := true, linkOk := true } = none := by
  have h := C5_creation_failure "oom" .dynamic 8 0 0 0 0
    { createProgram := .error "oom", createVertexShader := .ok 1,
      createFragmentShader := .ok 2, vertexCompileOk := true,
      fragmentCompileOk := true, linkOk := true }
  exact ⟨h.1, h.2.2.2.2, rfl, h.2.2.2.1 rfl⟩

/-- C6: `BufferHandle::update(offset, data)` panics — issuing no device
write — whenever `offset + len(data) > capacity`; succeeds whenever
`offset ≥ 0` and `offset + len(data) = capacity`; and never reallocates: the
handle is taken by shared reference (its capacity cannot change) and the
issued trace contains a `glBufferSubData` write but never a `glBufferData`
(re)allocation. -/
theorem C6_update_bounds :
    ∀ (h : BufferHandle) (offset : Int) (dataLen : Nat),
      -2 ^ 31 ≤ offset → offset < 2 ^ 31 → h.capacity < 2 ^ 64 →
      ((h.capacity : Int) < offset + dataLen → h.update offset dataLen = none) ∧
      (0 ≤ offset → offset + dataLen = h.capacity →
        h.update offset dataLen =
          some [GLCall.bindBuffer h.ty.toGl (some h.buffer),
                GLCall.bufferSubData h.ty.toGl offset dataLen]) ∧
      (∀ calls, h.update offset dataLen = some calls →
        ∀ c ∈ calls, ∀ target len usage, c ≠ GLCall.bufferData target len usage) := by
  intro h offset dataLen hlo hhi hcap
  refine ⟨?_, ?_, ?_⟩
  · intro hover
    rw [BufferHandle.update, if_neg]
    unfold i32AsUsize
    omega
  · intro hnonneg hexact
    rw [BufferHandle.update, if_pos]
    unfold i32AsUsize
    omega
  · intro calls hcalls c hc target len usage
    rw [BufferHandle.update] at hcalls
    by_cases hguard : i32AsUsize offset + dataLen ≤ h.capacity
    · rw [if_pos hguard] at hcalls
      obtain rfl : calls = [GLCall.bindBuffer h.ty.toGl (some h.buffer),
          GLCall.bufferSubData h.ty.toGl offset dataLen] := by
        injection hcalls with hc2
        exact hc2.symm
      simp only [List.mem_cons, List.not_mem_nil, or_false] at hc
      rcases hc with rfl | rfl <;> simp
    · rw [if_neg hguard] at hcalls
      cases hcalls

/-- Witness for C6 at concrete inputs: capacity 4, an update of 2 bytes at
offset 2 exactly fills the buffer and issues the write; an update of 2 bytes
at offset 3 overflows and panics. -/
theorem C6_update_bounds_witness :
    (BufferHandle.mk 4 1 .arrayBuffer).update 2 2 =
      some [GLCall.bindBuffer ARRAY_BUFFER (some 1),
            GLCall.bufferSubData ARRAY_BUFFER 2 2] ∧
    (BufferHandle.mk 4 1 .arrayBuffer).update 3 2 = none := by
  constructor
  · exact (C6_update_bounds (BufferHandle.mk 4 1 .arrayBuffer) 2 2 (by norm_num)
      (by norm_num) (by norm_num)).2.1 (by norm_num) (by norm_num)
  · exact (C6_update_bounds (BufferHandle.mk 4 1 .arrayBuffer) 3 2 (by norm_num)
      (by norm_num) (by norm_num)).1 (by norm_num)

lemma applyAttribCalls_append (E : Finset Nat) (l1 l2 : List GLCall) :
    applyAttribCalls E (l1 ++ l2) = applyAttribCalls (applyAttribCalls E l1) l2 := by
  simp [applyAttribCalls, List.foldl_append]

lemma applyAttribCalls_disable_map (l : List Nat) (E : Finset Nat) :
    applyAttribCalls E (l.map GLCall.disableVertexAttribArray) =
      l.foldl (fun s j => s.erase j) E := by
  induction l generalizing E with
  | nil => rfl
  | cons j rest ih =>
    simp only [List.map_cons, applyAttribCalls, List.foldl_cons] at *
    exact ih _

lemma foldl_erase_subset (l : List Nat) (E : Finset Nat) :
    l.foldl (fun s j => s.erase j) E ⊆ E := by
  induction l generalizing E with
  | nil => exact subset_rfl
  | cons j rest ih =>
    simp only [List.foldl_cons]
    exact (ih _).trans (Finset.erase_subset _ _)

lemma not_mem_foldl_erase (l : List Nat) (E : Finset Nat) (i : Nat) (h : i ∈ l) :
    i ∉ l.foldl (fun s j => s.erase j) E := by
  induction l generalizing E with
  | nil => cases h
  | cons j rest ih =>
    simp only [List.foldl_cons]
    rcases List.mem_cons.mp h with rfl | hmem
    · by_cases hr : i ∈ rest
      · exact ih _ hr
      · intro hin
        have := foldl_erase_subset rest (E.erase i) hin
        simp at this
    · exact ih _ hmem

/-- C3 (the pipeline-application scope is modelled from the spec, the code
that implements it being absent from the provided sources): for every
pipeline with N declared vertex attributes, exiting the pipeline-application
scope disables every attribute index 0..N-1 the pipeline declared — whatever
the entry sequence, the body's calls and the previously enabled attribute
set — so a subsequently applied pipeline with fewer attributes never
observes an attribute index left enabled by a prior, larger pipeline. -/
theorem C3_scope_exit_disables_attributes :
    ∀ (sharedVao : Nat) (p : RenderPipeline) (bodyCalls : List GLCall)
      (enabled : Finset Nat) (i : Nat),
      i < p.vertexAttributes.length →
      i ∉ applyAttribCalls enabled (withPipelineTrace sharedVao p bodyCalls) := by
  intro vao p body E i hi
  unfold withPipelineTrace pipelineExitCalls
  rw [applyAttribCalls_append, applyAttribCalls_append, applyAttribCalls_disable_map]
  exact not_mem_foldl_erase _ _ _ (List.mem_range.mpr hi)

/-- Witness for C3 at a concrete input: a pipeline declaring two attributes,
a body that enables both of them via `apply_bindings`, and attribute 5
enabled beforehand; after the scope, index 1 (declared by the pipeline) is
disabled. -/
theorem C3_scope_exit_disables_attributes_witness :
    1 < ((RenderPipeline.newPipeline (ShaderProgram.mk 1)).withVertexAttribute
          ⟨0, 2, .float, false, 16, 0, 0⟩ |>.withVertexAttribute
          ⟨0, 2, .float, false, 16, 8, 0⟩).vertexAttributes.length ∧
    1 ∉ applyAttribCalls {5}
        (withPipelineTrace 3
          ((RenderPipeline.newPipeline (ShaderProgram.mk 1)).withVertexAttribute
            ⟨0, 2, .float, false, 16, 0, 0⟩ |>.withVertexAttribute
            ⟨0, 2, .float, false, 16, 8, 0⟩)
          [GLCall.enableVertexAttribArray 0, GLCall.enableVertexAttribArray 1]) :=
  ⟨by decide,
   C3_scope_exit_disables_attributes 3 _ _ {5} 1 (by decide)⟩

lemma bufferFlushCalls_unknown_known (v : Option Nat) (target : Nat) :
    bufferFlushCalls .unknown (.known v) target = some [GLCall.bindBuffer target v] := by
  simp [bufferFlushCalls, MaybeKnown.assumeKnown]

lemma bufferFlushCalls_isSome {last cur : MaybeKnown (Option Nat)}
    (h : cur.isKnown = true) (target : Nat) :
    (bufferFlushCalls last cur target).isSome = true := by
  cases cur with
  | known v => rw [bufferFlushCalls]; split <;> simp [MaybeKnown.assumeKnown]
  | unknown => simp [MaybeKnown.isKnown] at h

lemma programFlushCalls_isSome {last cur : MaybeKnown (Option Nat)}
    (h : cur.isKnown = true) :
    (programFlushCalls last cur).isSome = true := by
  cases cur with
  | known v => rw [programFlushCalls]; split <;> simp [MaybeKnown.assumeKnown]
  | unknown => simp [MaybeKnown.isKnown] at h

lemma textureFlushCalls_isSome :
    ∀ (cs ls : List (MaybeKnown (Option Nat))) (i : Nat),
      (∀ c ∈ cs, c.isKnown = true) → (textureFlushCalls cs ls i).isSome = true := by
  intro cs
  induction cs with
  | nil => intro ls i _; cases ls <;> simp [textureFlushCalls]
  | cons c cs ih =>
    intro ls i hall
    cases ls with
    | nil => simp [textureFlushCalls]
    | cons l ls =>
      have hrest := ih ls (i + 1) (fun x hx => hall x (List.mem_cons_of_mem _ hx))
      obtain ⟨tr, htr⟩ := Option.isSome_iff_exists.mp hrest
      have hc : c.isKnown = true := hall c (List.mem_cons_self _ _)
      cases c with
      | known v =>
        rw [textureFlushCalls]
        rw [htr]
        simp [MaybeKnown.assumeKnown]
        split <;> simp
      | unknown => simp [MaybeKnown.isKnown] at hc

lemma allKnown_parts {s : ContextState} (h : s.allKnown = true) :
    s.boundArrayBuffer.isKnown = true ∧ s.boundElementBuffer.isKnown = true ∧
      (∀ c ∈ s.boundTextures, c.isKnown = true) ∧ s.program.isKnown = true := by
  simp only [ContextState.allKnown, Bool.and_eq_true, List.all_eq_true] at h
  exact ⟨h.1.1.1, h.1.1.2, h.1.2, h.2⟩

lemma flushState_isSome_of_allKnown {ctx : ManagedContext}
    (h : ctx.currentState.allKnown = true) : (ctx.flushState).isSome = true := by
  obtain ⟨h1, h2, h3, h4⟩ := allKnown_parts h
  obtain ⟨ab, hab⟩ := Option.isSome_iff_exists.mp
    (@bufferFlushCalls_isSome ctx.lastFlushedState.boundArrayBuffer _ h1 ARRAY_BUFFER)
  obtain ⟨eb, heb⟩ := Option.isSome_iff_exists.mp
    (@bufferFlushCalls_isSome ctx.lastFlushedState.boundElementBuffer _ h2
      ELEMENT_ARRAY_BUFFER)
  obtain ⟨tex, htex⟩ := Option.isSome_iff_exists.mp
    (textureFlushCalls_isSome _ ctx.lastFlushedState.boundTextures 0 h3)
  obtain ⟨prog, hprog⟩ := Option.isSome_iff_exists.mp
    (@programFlushCalls_isSome ctx.lastFlushedState.program _ h4)
  simp [ManagedContext.flushState, hab, heb, htex, hprog]

lemma flushState_fst {ctx ctx1 : ManagedContext} {tr : List GLCall}
    (h : ctx.flushState = some (ctx1, tr)) :
    ctx1 = { ctx with lastFlushedState := ctx.currentState } := by
  simp only [ManagedContext.flushState] at h
  split at h
  · injection h with h2
    injection h2 with h3 h4
    exact h3.symm
  · cases h

lemma flushState_trace_mem {ctx : ManagedContext} {ab eb tex : List GLCall}
    (hab : bufferFlushCalls ctx.lastFlushedState.boundArrayBuffer
      ctx.currentState.boundArrayBuffer ARRAY_BUFFER = some ab)
    (heb : bufferFlushCalls ctx.lastFlushedState.boundElementBuffer
      ctx.currentState.boundElementBuffer ELEMENT_ARRAY_BUFFER = some eb)
    (htex : textureFlushCalls ctx.currentState.boundTextures
      ctx.lastFlushedState.boundTextures 0 = some tex)
    (hprog : (programFlushCalls ctx.lastFlushedState.program
      ctx.currentState.program).isSome = true) :
    ∃ tr, ctx.flushState =
        some ({ ctx with lastFlushedState := ctx.currentState }, tr) ∧
      (∀ c ∈ ab, c ∈ tr) ∧ (∀ c ∈ eb, c ∈ tr) ∧ (∀ c ∈ tex, c ∈ tr) := by
  obtain ⟨prog, hp⟩ := Option.isSome_iff_exists.mp hprog
  simp only [ManagedContext.flushState, hab, heb, htex, hp]
  refine ⟨_, rfl, ?_, ?_, ?_⟩ <;>
  · intro c hc
    simp only [List.mem_append]
    tauto

lemma runOp_inv {ctx ctx1 : ManagedContext} {op : Op} {tr : List GLCall}
    (hinv : CtxInv ctx) (h : runOp ctx op = some (ctx1, tr)) : CtxInv ctx1 := by
  obtain ⟨⟨hck, hcl⟩, hll, hstack⟩ := hinv
  cases op <;> simp only [runOp] at h
  case setBlendFunc src dst =>
    rw [Option.some_inj] at h
    have hc : ctx1 = (ctx.setBlendFunc src dst).1 := by rw [h]
    subst hc
    rw [ManagedContext.setBlendFunc]
    split
    · exact ⟨⟨by simpa [ContextState.allKnown] using hck, by simpa using hcl⟩,
        by simpa using hll, hstack⟩
    · exact ⟨⟨hck, hcl⟩, hll, hstack⟩
  case setBlend enabled =>
    rw [Option.some_inj] at h
    have hc : ctx1 = (ctx.setBlend enabled).1 := by rw [h]
    subst hc
    rw [ManagedContext.setBlend]
    split
    · exact ⟨⟨by simpa [ContextState.allKnown] using hck, by simpa using hcl⟩,
        by simpa using hll, hstack⟩
    · exact ⟨⟨hck, hcl⟩, hll, hstack⟩
  case setDepthWrite enabled =>
    rw [Option.some_inj] at h
    have hc : ctx1 = (ctx.setDepthWrite enabled).1 := by rw [h]
    subst hc
    rw [ManagedContext.setDepthWrite]
    split
    · exact ⟨⟨by simpa [ContextState.allKnown] using hck, by simpa using hcl⟩,
        by simpa using hll, hstack⟩
    · exact ⟨⟨hck, hcl⟩, hll, hstack⟩
  case setColorWrite r g b a =>
    rw [Option.some_inj] at h
    have hc : ctx1 = (ctx.setColorWrite r g b a).1 := by rw [h]
    subst hc
    rw [ManagedContext.setColorWrite]
    split
    · exact ⟨⟨by simpa [ContextState.allKnown] using hck, by simpa using hcl⟩,
        by simpa using hll, hstack⟩
    · exact ⟨⟨hck, hcl⟩, hll, hstack⟩
  case useProgram program =>
    rw [Option.some_inj] at h
    have hc : ctx1 = (ctx.useProgram program).1 := by rw [h]
    subst hc
    rw [ManagedContext.useProgram]
    split
    · refine ⟨⟨?_, by simpa using hcl⟩, by simpa using hll, hstack⟩
      simp only [ContextState.allKnown, Bool.and_eq_true] at hck ⊢
      exact ⟨hck.1, rfl⟩
    · exact ⟨⟨hck, hcl⟩, hll, hstack⟩
  case unuseProgram =>
    rw [Option.some_inj] at h
    have hc : ctx1 = ctx.unuseProgram.1 := by rw [h]
    subst hc
    rw [ManagedContext.unuseProgram]
    split
    · refine ⟨⟨?_, by simpa using hcl⟩, by simpa using hll, hstack⟩
      simp only [ContextState.allKnown, Bool.and_eq_true] at hck ⊢
      exact ⟨hck.1, rfl⟩
    · exact ⟨⟨hck, hcl⟩, hll, hstack⟩
  case bindArrayBuffer buffer =>
    rw [Option.some_inj] at h
    have hc : ctx1 = (ctx.bindArrayBuffer buffer).1 := by rw [h]
    subst hc
    rw [ManagedContext.bindArrayBuffer]
    split
    · refine ⟨⟨?_, by simpa using hcl⟩, by simpa using hll, hstack⟩
      simp only [ContextState.allKnown, Bool.and_eq_true] at hck ⊢
      exact ⟨⟨⟨rfl, hck.1.1.2⟩, hck.1.2⟩, hck.2⟩
    · exact ⟨⟨hck, hcl⟩, hll, hstack⟩
  case unbindArrayBuffer =>
    rw [Option.some_inj] at h
    have hc : ctx1 = ctx.unbindArrayBuffer.1 := by rw [h]
    subst hc
    rw [ManagedContext.unbindArrayBuffer]
    split
    · refine ⟨⟨?_, by simpa using hcl⟩, by simpa using hll, hstack⟩
      simp only [ContextState.allKnown, Bool.and_eq_true] at hck ⊢
      exact ⟨⟨⟨rfl, hck.1.1.2⟩, hck.1.2⟩, hck.2⟩
    · exact ⟨⟨hck, hcl⟩, hll, hstack⟩
  case bindIndexBuffer buffer =>
    rw [Option.some_inj] at h
    have hc : ctx1 = (ctx.bindIndexBuffer buffer).1 := by rw [h]
    subst hc
    rw [ManagedContext.bindIndexBuffer]
    split
    · refine ⟨⟨?_, by simpa using hcl⟩, by simpa using hll, hstack⟩
      simp only [ContextState.allKnown, Bool.and_eq_true] at hck ⊢
      exact ⟨⟨⟨hck.1.1.1, rfl⟩, hck.1.2⟩, hck.2⟩
    · exact ⟨⟨hck, hcl⟩, hll, hstack⟩
  case unbindIndexBuffer =>
    rw [Option.some_inj] at h
    have hc : ctx1 = ctx.unbindIndexBuffer.1 := by rw [h]
    subst hc
    rw [ManagedContext.unbindIndexBuffer]
    split
    · refine ⟨⟨?_, by simpa using hcl⟩, by simpa using hll, hstack⟩
      simp only [ContextState.allKnown, Bool.and_eq_true] at hck ⊢
      exact ⟨⟨⟨hck.1.1.1, rfl⟩, hck.1.2⟩, hck.2⟩
    · exact ⟨⟨hck, hcl⟩, hll, hstack⟩
  case bindAnyBuffer buffer =>
    rw [Option.some_inj] at h
    have hc : ctx1 = (ctx.bindAnyBuffer buffer).1 := by rw [h]
    subst hc
    rw [ManagedContext.bindAnyBuffer]
    rcases buffer with ⟨cap, buf, ty⟩
    cases ty <;> dsimp only
    · split
      · refine ⟨⟨?_, by simpa using hcl⟩, by simpa using hll, hstack⟩
        simp only [ContextState.allKnown, Bool.and_eq_true] at hck ⊢
        exact ⟨⟨⟨rfl, hck.1.1.2⟩, hck.1.2⟩, hck.2⟩
      · exact ⟨⟨hck, hcl⟩, hll, hstack⟩
    · split
      · refine ⟨⟨?_, by simpa using hcl⟩, by simpa using hll, hstack⟩
        simp only [ContextState.allKnown, Bool.and_eq_true] at hck ⊢
        exact ⟨⟨⟨hck.1.1.1, rfl⟩, hck.1.2⟩, hck.2⟩
      · exact ⟨⟨hck, hcl⟩, hll, hstack⟩
  case setClearColor color =>
    rw [Option.some_inj] at h
    have hc : ctx1 = (ctx.setClearColor color).1 := by rw [h]
    subst hc
    rw [ManagedContext.setClearColor]
    split
    · exact ⟨⟨by simpa [ContextState.allKnown] using hck, by simpa using hcl⟩,
        by simpa using hll, hstack⟩
    · exact ⟨⟨hck, hcl⟩, hll, hstack⟩
  case setViewport x y w hh =>
    rw [Option.some_inj] at h
    have hc : ctx1 = (ctx.setViewport x y w hh).1 := by rw [h]
    subst hc
    rw [ManagedContext.setViewport]
    split
    · exact ⟨⟨by simpa [ContextState.allKnown] using hck, by simpa using hcl⟩,
        by simpa using hll, hstack⟩
    · exact ⟨⟨hck, hcl⟩, hll, hstack⟩
  case invalidateTexture unit =>
    rw [ManagedContext.invalidateTexture] at h
    split at h
    · simp only [Option.map_some'] at h
      rw [Option.some_inj] at h
      have hc : ctx1 = ({ ctx with
          lastFlushedState := { ctx.lastFlushedState with
            boundTextures :=
              ctx.lastFlushedState.boundTextures.set unit .unknown } }, ([] : List GLCall)).1 := by
        rw [h]
      subst hc
      exact ⟨⟨hck, hcl⟩, by simpa [List.length_set] using hll, hstack⟩
    · simp at h
  case invalidateIndexBuffer =>
    rw [Option.some_inj] at h
    have hc : ctx1 = (ctx.invalidateIndexBuffer, ([] : List GLCall)).1 := by rw [h]
    subst hc
    exact ⟨⟨hck, hcl⟩, by simpa [ManagedContext.invalidateIndexBuffer] using hll, hstack⟩
  case invalidateArrayBuffer =>
    rw [Option.some_inj] at h
    have hc : ctx1 = (ctx.invalidateArrayBuffer, ([] : List GLCall)).1 := by rw [h]
    subst hc
    exact ⟨⟨hck, hcl⟩, by simpa [ManagedContext.invalidateArrayBuffer] using hll, hstack⟩
  case save =>
    rw [Option.some_inj] at h
    have hc : ctx1 = (ctx.save, ([] : List GLCall)).1 := by rw [h]
    subst hc
    refine ⟨⟨hck, hcl⟩, hll, ?_⟩
    intro s hs
    rcases List.mem_cons.mp hs with rfl | hs2
    · exact ⟨hck, hcl⟩
    · exact hstack s hs2
  case restore =>
    rw [ManagedContext.restore] at h
    split at h
    · simp at h
    next s rest heq =>
      simp only [Option.map_some'] at h
      rw [Option.some_inj] at h
      have hc : ctx1 = ({ ctx with currentState := s, stateStack := rest },
          ([] : List GLCall)).1 := by rw [h]
      subst hc
      have hs : s.good := hstack s (heq ▸ List.mem_cons_self _ _)
      refine ⟨hs, hll, ?_⟩
      intro x hx
      exact hstack x (heq ▸ List.mem_cons_of_mem _ hx)
  case flushState =>
    have hc := flushState_fst h
    subst hc
    exact ⟨⟨hck, hcl⟩, hcl, hstack⟩
  case drawArrays mode first count =>
    rw [Option.some_inj] at h
    have hc : ctx1 = (ctx.drawArraysCtx mode first count).1 := by rw [h]
    subst hc
    exact ⟨⟨hck, hcl⟩, hll, hstack⟩
  case drawElements mode count ty offset =>
    rw [Option.some_inj] at h
    have hc : ctx1 = (ctx.drawElementsCtx mode count ty offset).1 := by rw [h]
    subst hc
    exact ⟨⟨hck, hcl⟩, hll, hstack⟩
  case clear mask =>
    rw [Option.some_inj] at h
    have hc : ctx1 = (ctx.clearCtx mask).1 := by rw [h]
    subst hc
    exact ⟨⟨hck, hcl⟩, hll, hstack⟩

lemma runOps_inv :
    ∀ (ops : List Op) (ctx ctx1 : ManagedContext) (tr : List GLCall),
      CtxInv ctx → runOps ctx ops = some (ctx1, tr) → CtxInv ctx1 := by
  intro ops
  induction ops with
  | nil =>
    intro ctx ctx1 tr hinv h
    rw [runOps, Option.some_inj] at h
    have hc : ctx1 = ((ctx, []) : ManagedContext × List GLCall).1 := by rw [h]
    subst hc
    exact hinv
  | cons op ops ih =>
    intro ctx ctx1 tr hinv h
    rw [runOps] at h
    split at h
    · cases h
    · rename_i c1 t1 heq
      split at h
      · cases h
      · rename_i c2 t2 heq2
        injection h with h2
        injection h2 with h3 h4
        subst h3
        exact ih c1 c2 t2 (runOp_inv hinv heq) heq2

lemma newCtx_inv : CtxInv ManagedContext.newCtx := by
  refine ⟨⟨by decide, by decide⟩, by decide, ?_⟩
  intro s hs
  cases hs

lemma reachable_inv {ctx : ManagedContext} (h : Reachable ctx) : CtxInv ctx := by
  obtain ⟨ops, tr, hops⟩ := h
  exact runOps_inv ops ManagedContext.newCtx ctx tr newCtx_inv hops

/-- C10: in every reachable `ManagedContext` state, every field of
`current_state` is `Known` (the `invalidate_*` operations touch only
`last_flushed_state`, and every mutator writes `Known` values), so the
"Tried to unwrap invalidated binding" panic of the `assume_known` calls
`flush_state` makes on `current_state` is unreachable: `flush_state` never
panics. -/
theorem C10_flush_never_panics :
    ∀ ctx, Reachable ctx →
      ctx.currentState.allKnown = true ∧ (ctx.flushState).isSome = true := by
  intro ctx hr
  have hk := (reachable_inv hr).1.1
  exact ⟨hk, flushState_isSome_of_allKnown hk⟩

/-- Witness for C10 at the concrete reachable state produced by the empty
operation sequence. -/
theorem C10_flush_never_panics_witness :
    Reachable ManagedContext.newCtx ∧
    ManagedContext.newCtx.currentState.allKnown = true ∧
    (ManagedContext.newCtx.flushState).isSome = true :=
  ⟨⟨[], [], rfl⟩, C10_flush_never_panics ManagedContext.newCtx ⟨[], [], rfl⟩⟩

lemma get?_known_of_all {l : List (MaybeKnown (Option Nat))} {u : Nat}
    (hall : ∀ c ∈ l, c.isKnown = true) (hu : u < l.length) :
    ∃ v, l.get? u = some (.known v) := by
  rcases h2 : l.get? u with _ | c
  · rw [List.get?_eq_none] at h2
    omega
  · have hc := hall c (List.get?_mem h2)
    cases c with
    | known v => exact ⟨v, rfl⟩
    | unknown => simp [MaybeKnown.isKnown] at hc

lemma textureFlushCalls_mem :
    ∀ (u : Nat) (cs ls : List (MaybeKnown (Option Nat))) (i : Nat) (v : Option Nat),
      (∀ c ∈ cs, c.isKnown = true) →
      cs.get? u = some (.known v) → ls.get? u = some .unknown →
      ∃ tr, textureFlushCalls cs ls i = some tr ∧
        GLCall.activeTexture (TEXTURE0 + (i + u)) ∈ tr ∧
        GLCall.bindTexture TEXTURE_2D v ∈ tr := by
  intro u
  induction u with
  | zero =>
    intro cs ls i v hall hcs hls
    cases cs with
    | nil => cases hcs
    | cons c cs =>
      cases ls with
      | nil => cases hls
      | cons l ls =>
        simp only [List.get?] at hcs hls
        injection hcs with hcs
        injection hls with hls
        subst hcs
        subst hls
        obtain ⟨tr0, htr0⟩ := Option.isSome_iff_exists.mp
          (textureFlushCalls_isSome cs ls (i + 1)
            (fun x hx => hall x (List.mem_cons_of_mem _ hx)))
        rw [textureFlushCalls, htr0]
        simp [MaybeKnown.assumeKnown]
  | succ u ih =>
    intro cs ls i v hall hcs hls
    cases cs with
    | nil => cases hcs
    | cons c cs =>
      cases ls with
      | nil => cases hls
      | cons l ls =>
        simp only [List.get?] at hcs hls
        obtain ⟨tr0, htr0, hm1, hm2⟩ := ih cs ls (i + 1) v
          (fun x hx => hall x (List.mem_cons_of_mem _ hx)) hcs hls
        have hidx : i + (u + 1) = (i + 1) + u := by omega
        rw [textureFlushCalls, htr0, hidx]
        by_cases hcl : c = l
        · simp only [hcl, ne_eq, not_true_eq_false, if_neg, ite_not]
          exact ⟨tr0, by simp, hm1, hm2⟩
        · have hc := hall c (List.mem_cons_self _ _)
          cases c with
          | known w =>
            refine ⟨GLCall.activeTexture (TEXTURE0 + i) ::
              GLCall.bindTexture TEXTURE_2D w :: tr0, ?_, ?_, ?_⟩
            · simp [MaybeKnown.assumeKnown, hcl]
            · exact List.mem_cons_of_mem _ (List.mem_cons_of_mem _ hm1)
            · exact List.mem_cons_of_mem _ (List.mem_cons_of_mem _ hm2)
          | unknown => simp [MaybeKnown.isKnown] at hc

/-- C2: in every reachable context, after `invalidate_array_buffer`,
`invalidate_index_buffer` or `invalidate_texture(unit)`, the next
`flush_state` call issues the corresponding re-bind device call even when
the current value equals the value cached before invalidation (the statement
quantifies over all reachable states, including those with
`last_flushed = current`), and after `flush_state` returns the field is
`Known` again: `last_flushed_state` equals `current_state` and no field of
it is `Unknown`. -/
theorem C2_invalidate_forces_rebind :
    ∀ ctx, Reachable ctx →
      (∃ v, ctx.currentState.boundArrayBuffer = .known v ∧
        ∃ ctx1 tr, (ctx.invalidateArrayBuffer).flushState = some (ctx1, tr) ∧
          GLCall.bindBuffer ARRAY_BUFFER v ∈ tr ∧
          ctx1.lastFlushedState = ctx1.currentState ∧
          ctx1.lastFlushedState.allKnown = true) ∧
      (∃ v, ctx.currentState.boundElementBuffer = .known v ∧
        ∃ ctx1 tr, (ctx.invalidateIndexBuffer).flushState = some (ctx1, tr) ∧
          GLCall.bindBuffer ELEMENT_ARRAY_BUFFER v ∈ tr ∧
          ctx1.lastFlushedState = ctx1.currentState ∧
          ctx1.lastFlushedState.allKnown = true) ∧
      (∀ unit, unit < 16 →
        ∃ ctxI, ctx.invalidateTexture unit = some ctxI ∧
        ∃ v, ctx.currentState.boundTextures.get? unit = some (.known v) ∧
        ∃ ctx1 tr, ctxI.flushState = some (ctx1, tr) ∧
          GLCall.activeTexture (TEXTURE0 + unit) ∈ tr ∧
          GLCall.bindTexture TEXTURE_2D v ∈ tr ∧
          ctx1.lastFlushedState = ctx1.currentState ∧
          ctx1.lastFlushedState.allKnown = true) := by
  intro ctx hr
  obtain ⟨⟨hck, hcl⟩, hll, hstack⟩ := reachable_inv hr
  obtain ⟨h1, h2, h3, h4⟩ := allKnown_parts hck
  refine ⟨?_, ?_, ?_⟩
  · rcases hv : ctx.currentState.boundArrayBuffer with v | _
    case unknown => rw [hv] at h1; cases h1
    refine ⟨v, rfl, ?_⟩
    have hab : bufferFlushCalls
        (ctx.invalidateArrayBuffer).lastFlushedState.boundArrayBuffer
        (ctx.invalidateArrayBuffer).currentState.boundArrayBuffer ARRAY_BUFFER =
        some [GLCall.bindBuffer ARRAY_BUFFER v] := by
      simp [ManagedContext.invalidateArrayBuffer, hv, bufferFlushCalls_unknown_known]
    obtain ⟨eb, heb⟩ := Option.isSome_iff_exists.mp
      (@bufferFlushCalls_isSome
        (ctx.invalidateArrayBuffer).lastFlushedState.boundElementBuffer
        (ctx.invalidateArrayBuffer).currentState.boundElementBuffer h2
        ELEMENT_ARRAY_BUFFER)
    obtain ⟨tex, htex⟩ := Option.isSome_iff_exists.mp
      (textureFlushCalls_isSome (ctx.invalidateArrayBuffer).currentState.boundTextures
        (ctx.invalidateArrayBuffer).lastFlushedState.boundTextures 0 h3)
    obtain ⟨tr, hfl, habm, _, _⟩ := flushState_trace_mem hab heb htex
      (@programFlushCalls_isSome (ctx.invalidateArrayBuffer).lastFlushedState.program
        (ctx.invalidateArrayBuffer).currentState.program h4)
    exact ⟨_, tr, hfl, habm _ (List.mem_singleton.mpr rfl), rfl, hck⟩
  · rcases hv : ctx.currentState.boundElementBuffer with v | _
    case unknown => rw [hv] at h2; cases h2
    refine ⟨v, rfl, ?_⟩
    have heb : bufferFlushCalls
        (ctx.invalidateIndexBuffer).lastFlushedState.boundElementBuffer
        (ctx.invalidateIndexBuffer).currentState.boundElementBuffer
        ELEMENT_ARRAY_BUFFER = some [GLCall.bindBuffer ELEMENT_ARRAY_BUFFER v] := by
      simp [ManagedContext.invalidateIndexBuffer, hv, bufferFlushCalls_unknown_known]
    obtain ⟨ab, hab⟩ := Option.isSome_iff_exists.mp
      (@bufferFlushCalls_isSome
        (ctx.invalidateIndexBuffer).lastFlushedState.boundArrayBuffer
        (ctx.invalidateIndexBuffer).currentState.boundArrayBuffer h1 ARRAY_BUFFER)
    obtain ⟨tex, htex⟩ := Option.isSome_iff_exists.mp
      (textureFlushCalls_isSome (ctx.invalidateIndexBuffer).currentState.boundTextures
        (ctx.invalidateIndexBuffer).lastFlushedState.boundTextures 0 h3)
    obtain ⟨tr, hfl, _, hebm, _⟩ := flushState_trace_mem hab heb htex
      (@programFlushCalls_isSome (ctx.invalidateIndexBuffer).lastFlushedState.program
        (ctx.invalidateIndexBuffer).currentState.program h4)
    exact ⟨_, tr, hfl, hebm _ (List.mem_singleton.mpr rfl), rfl, hck⟩
  · intro u hu
    have hlen : u < ctx.lastFlushedState.boundTextures.length := by omega
    have hinvEq : ctx.invalidateTexture u = some { ctx with
        lastFlushedState := { ctx.lastFlushedState with
          boundTextures := ctx.lastFlushedState.boundTextures.set u .unknown } } := by
      simp [ManagedContext.invalidateTexture, hlen]
    obtain ⟨v, hv⟩ := @get?_known_of_all ctx.currentState.boundTextures u h3
      (by rw [hcl]; exact hu)
    obtain ⟨texTr, htexEq, hm1, hm2⟩ := textureFlushCalls_mem u
      ctx.currentState.boundTextures
      (ctx.lastFlushedState.boundTextures.set u .unknown) 0 v h3 hv
      (List.get?_set_eq_of_lt _ hlen)
    rw [Nat.zero_add] at hm1
    refine ⟨_, hinvEq, v, hv, ?_⟩
    obtain ⟨ab, hab⟩ := Option.isSome_iff_exists.mp
      (@bufferFlushCalls_isSome
        ({ ctx with lastFlushedState := { ctx.lastFlushedState with
            boundTextures := ctx.lastFlushedState.boundTextures.set u .unknown }
          } : ManagedContext).lastFlushedState.boundArrayBuffer
        ctx.currentState.boundArrayBuffer h1 ARRAY_BUFFER)
    obtain ⟨eb, heb⟩ := Option.isSome_iff_exists.mp
      (@bufferFlushCalls_isSome
        ({ ctx with lastFlushedState := { ctx.lastFlushedState with
            boundTextures := ctx.lastFlushedState.boundTextures.set u .unknown }
          } : ManagedContext).lastFlushedState.boundElementBuffer
        ctx.currentState.boundElementBuffer h2 ELEMENT_ARRAY_BUFFER)
    obtain ⟨tr, hfl, _, _, htexm⟩ := flushState_trace_mem hab heb htexEq
      (@programFlushCalls_isSome
        ({ ctx with lastFlushedState := { ctx.lastFlushedState with
            boundTextures := ctx.lastFlushedState.boundTextures.set u .unknown }
          } : ManagedContext).lastFlushedState.program
        ctx.currentState.program h4)
    exact ⟨_, tr, hfl, htexm _ hm1, htexm _ hm2, rfl, hck⟩

/-- Witness for C2 at the concrete reachable initial context (empty
operation sequence): invalidating the array buffer there forces the next
flush to re-issue the array-buffer bind. -/
theorem C2_invalidate_forces_rebind_witness :
    Reachable ManagedContext.newCtx ∧
    (∃ v, ManagedContext.newCtx.currentState.boundArrayBuffer = .known v ∧
      ∃ ctx1 tr,
        (ManagedContext.newCtx.invalidateArrayBuffer).flushState = some (ctx1, tr) ∧
        GLCall.bindBuffer ARRAY_BUFFER v ∈ tr ∧
        ctx1.lastFlushedState = ctx1.currentState ∧
        ctx1.lastFlushedState.allKnown = true) :=
  ⟨⟨[], [], rfl⟩,
   (C2_invalidate_forces_rebind ManagedContext.newCtx ⟨[], [], rfl⟩).1⟩

end Rapax
